import Mathlib

/-!
Verification of the nanoclaw group scheduler and router cursor state machine.

The definitions below are a shallow embedding of src/group-queue.ts
(class GroupQueue) and of the router functions processGroupMessages and
startMessageLoop from the main module.  The JavaScript code is
single-threaded: every scheduler mutation happens inside one synchronous
segment between two await points, so each such segment is modelled as one
atomic transition on an explicit state value.  An async run is split into
its synchronous start prefix (everything up to the first await) and a
finish transition (the code after the await: try/catch result handling and
the finally block).  In-flight runs are tracked in the `running` field;
pending setTimeout retry callbacks in `retryTimers`.  Filesystem effects
(the IPC mailbox write) are all-or-nothing in the source (temp file plus
rename, with a catch returning false), so a write is modelled by a boolean
outcome parameter supplied by the environment.  Observable actions (run
starts, mailbox writes, retry scheduling, kill signals) are recorded in an
event trace; the source never invokes ChildProcess.kill from the scheduler,
which is why no operation emits a kill event.
-/

/-- A queued task from the source interface QueuedTask.  The deferred
closure fn is opaque side-effecting code; only the id (the dedup key) and
the owning group matter to the scheduler state, so fn is not carried. -/
structure QueuedTask where
  id : String
  deriving Repr, DecidableEq

/-- The scheduler-visible part of a ChildProcess handle: the killed flag
read by shutdown. -/
structure Proc where
  killed : Bool
  deriving Repr, DecidableEq

/-- Per-group state, from interface GroupState in group-queue.ts. -/
structure GroupState where
  active : Bool
  pendingMessages : Bool
  pendingTasks : List QueuedTask
  process : Option Proc
  processName : Option String
  groupFolder : Option String
  activeChatJid : Option String
  retryCount : Nat
  deriving Repr, DecidableEq

/-- The fresh state created by GroupQueue.getGroup for an unseen key. -/
def initGroupState : GroupState :=
  { active := false
    pendingMessages := false
    pendingTasks := []
    process := none
    processName := none
    groupFolder := none
    activeChatJid := none
    retryCount := 0 }

/-- Which kind of run is in flight: a message check (runForGroup) or a
queued task (runTask, identified by the task id). -/
inductive RunKind where
  | messages : RunKind
  | task (id : String) : RunKind
  deriving Repr, DecidableEq

/-- Observable actions of the scheduler. -/
inductive Ev where
  | start (g : String) (k : RunKind) : Ev
  | kill (name : String) : Ev
  | retryScheduled (g : String) (delayMs : Nat) : Ev
  | retryDropped (g : String) : Ev
  | mailboxWrite (g : String) (text : String) : Ev
  deriving Repr, DecidableEq

/-- The whole GroupQueue instance state.  groups mirrors the insertion
ordered Map; running lists the in-flight runs (one per started,
not-yet-finished async run); retryTimers lists the pending setTimeout
retry callbacks with their delays. -/
structure SchedState where
  groups : List (String × GroupState)
  activeCount : Nat
  waitingGroups : List String
  shuttingDown : Bool
  running : List (String × RunKind)
  retryTimers : List (String × Nat)
  deriving Repr, DecidableEq

def initState : SchedState :=
  { groups := []
    activeCount := 0
    waitingGroups := []
    shuttingDown := false
    running := []
    retryTimers := [] }

def MAX_RETRIES : Nat := 5
def BASE_RETRY_MS : Nat := 5000

/-- Lookup in the insertion-ordered association list backing the Map. -/
def lookupG : List (String × GroupState) → String → Option GroupState
  | [], _ => none
  | (k, v) :: r, g => if k = g then some v else lookupG r g

/-- Replace the value stored for a key in place, or append it. -/
def setPairs : List (String × GroupState) → String → GroupState → List (String × GroupState)
  | [], g, v => [(g, v)]
  | (k, w) :: r, g, v => if k = g then (g, v) :: r else (k, w) :: setPairs r g v

/-- Read a group state as GroupQueue.getGroup observes it: the stored
entry, or the fresh default. -/
def getG (s : SchedState) (g : String) : GroupState :=
  (lookupG s.groups g).getD initGroupState

/-- The insertion side effect of GroupQueue.getGroup: a missing key gets
the default entry appended (Map.set preserves insertion order). -/
def ensureGroup (s : SchedState) (g : String) : SchedState :=
  if (lookupG s.groups g).isSome then s
  else { s with groups := s.groups ++ [(g, initGroupState)] }

/-- Store an updated group state (mutation through the state reference). -/
def setG (s : SchedState) (g : String) (v : GroupState) : SchedState :=
  { s with groups := setPairs s.groups g v }

/-- JavaScript truthiness of an optional string: null/undefined and the
empty string are falsy. -/
def truthy : Option String → Bool
  | none => false
  | some s => !(s == "")

/-- Synchronous prefix of runForGroup: mark active, clear the pending
message flag, bump the global count, record the in-flight run. -/
def startMessageRunSync (s : SchedState) (g : String) : SchedState × List Ev :=
  let s1 := ensureGroup s g
  let st := getG s1 g
  let s2 := setG s1 g { st with active := true, pendingMessages := false }
  let s3 := { s2 with
    activeCount := s2.activeCount + 1
    running := s2.running ++ [(g, RunKind.messages)] }
  (s3, [Ev.start g RunKind.messages])

/-- Synchronous prefix of runTask: mark active, bump the global count,
record the in-flight run.  Note: unlike runForGroup it does not touch
pendingMessages. -/
def startTaskRunSync (s : SchedState) (g : String) (t : QueuedTask) : SchedState × List Ev :=
  let s1 := ensureGroup s g
  let st := getG s1 g
  let s2 := setG s1 g { st with active := true }
  let s3 := { s2 with
    activeCount := s2.activeCount + 1
    running := s2.running ++ [(g, RunKind.task t.id)] }
  (s3, [Ev.start g (RunKind.task t.id)])

/-- GroupQueue.enqueueMessageCheck. -/
def enqueueMessageCheck (MAX : Nat) (s : SchedState) (g : String) : SchedState × List Ev :=
  if s.shuttingDown then (s, [])
  else
    let s1 := ensureGroup s g
    let st := getG s1 g
    if st.active then (setG s1 g { st with pendingMessages := true }, [])
    else if MAX ≤ s1.activeCount then
      let s2 := setG s1 g { st with pendingMessages := true }
      let s3 :=
        if g ∈ s2.waitingGroups then s2
        else { s2 with waitingGroups := s2.waitingGroups ++ [g] }
      (s3, [])
    else startMessageRunSync s1 g

/-- GroupQueue.enqueueTask. -/
def enqueueTask (MAX : Nat) (s : SchedState) (g : String) (tid : String) :
    SchedState × List Ev :=
  if s.shuttingDown then (s, [])
  else
    let s1 := ensureGroup s g
    let st := getG s1 g
    if st.pendingTasks.any (fun t => t.id = tid) then (s1, [])
    else if st.active then
      (setG s1 g { st with pendingTasks := st.pendingTasks ++ [⟨tid⟩] }, [])
    else if MAX ≤ s1.activeCount then
      let s2 := setG s1 g { st with pendingTasks := st.pendingTasks ++ [⟨tid⟩] }
      let s3 :=
        if g ∈ s2.waitingGroups then s2
        else { s2 with waitingGroups := s2.waitingGroups ++ [g] }
      (s3, [])
    else startTaskRunSync s1 g ⟨tid⟩

/-- GroupQueue.registerProcess: the folder and chat bindings are stored
only when truthy. -/
def registerProcess (s : SchedState) (g : String) (p : Proc) (pname : String)
    (folder : Option String) (chatJid : Option String) : SchedState :=
  let s1 := ensureGroup s g
  let st := getG s1 g
  let st1 := { st with process := some p, processName := some pname }
  let st2 := if truthy folder then { st1 with groupFolder := folder } else st1
  let st3 := if truthy chatJid then { st2 with activeChatJid := chatJid } else st2
  setG s1 g st3

/-- GroupQueue.sendMessage.  writeOk is the environment outcome of the
atomic mkdir/write/rename sequence; the catch clause maps a failed write
to a false return instead of a throw. -/
def sendMessage (s : SchedState) (g : String) (text : String)
    (chatJid : Option String) (writeOk : Bool) : Bool × SchedState × List Ev :=
  let s1 := ensureGroup s g
  let st := getG s1 g
  if !st.active || !(truthy st.groupFolder) then (false, s1, [])
  else if truthy chatJid && truthy st.activeChatJid && !(st.activeChatJid == chatJid) then
    (false, s1, [])
  else if writeOk then (true, s1, [Ev.mailboxWrite g text])
  else (false, s1, [])

/-- GroupQueue.scheduleRetry, acting on one group state.  Returns the
updated group state, the delay of the setTimeout it registers (none past
the retry budget) and the observable events. -/
def scheduleRetry (g : String) (st : GroupState) : GroupState × Option Nat × List Ev :=
  let rc := st.retryCount + 1
  if MAX_RETRIES < rc then
    ({ st with retryCount := 0 }, none, [Ev.retryDropped g])
  else
    let delay := BASE_RETRY_MS * 2 ^ (rc - 1)
    ({ st with retryCount := rc }, some delay, [Ev.retryScheduled g delay])

/-- The finally block common to runForGroup and runTask: deactivate and
clear the process bindings. -/
def clearRunRefs (st : GroupState) : GroupState :=
  { st with
    active := false
    process := none
    processName := none
    groupFolder := none
    activeChatJid := none }

/-- Walk the waiting list (GroupQueue.drainWaiting's while loop).  The
list argument is the current waiting list; the field in the threaded
state is rewritten with the correct remainder when the loop stops, and is
not read by anything in between. -/
def drainWaitingAux (MAX : Nat) : List String → SchedState → SchedState × List Ev
  | [], s => ({ s with waitingGroups := [] }, [])
  | g :: rest, s =>
    if MAX ≤ s.activeCount then ({ s with waitingGroups := g :: rest }, [])
    else
      let s1 := ensureGroup s g
      let st := getG s1 g
      match st.pendingTasks with
      | t :: ts =>
        let s2 := setG s1 g { st with pendingTasks := ts }
        let r3 := startTaskRunSync s2 g t
        let r4 := drainWaitingAux MAX rest r3.1
        (r4.1, r3.2 ++ r4.2)
      | [] =>
        if st.pendingMessages then
          let r3 := startMessageRunSync s1 g
          let r4 := drainWaitingAux MAX rest r3.1
          (r4.1, r3.2 ++ r4.2)
        else drainWaitingAux MAX rest s1

/-- GroupQueue.drainWaiting. -/
def drainWaiting (MAX : Nat) (s : SchedState) : SchedState × List Ev :=
  drainWaitingAux MAX s.waitingGroups s

/-- GroupQueue.drainGroup: the group's own tasks first, then its pending
message flag, else try to hand the freed slot to a waiting group. -/
def drainGroup (MAX : Nat) (s : SchedState) (g : String) : SchedState × List Ev :=
  if s.shuttingDown then (s, [])
  else
    let s1 := ensureGroup s g
    let st := getG s1 g
    match st.pendingTasks with
    | t :: ts => startTaskRunSync (setG s1 g { st with pendingTasks := ts }) g t
    | [] =>
      if st.pendingMessages then startMessageRunSync s1 g
      else drainWaiting MAX s1

/-- runForGroup after its await, up to but excluding drainGroup: the
success/failure handling (outcome none models a null processMessagesFn,
some true a successful run, some false an error return or a throw) and
the finally block. -/
def finishMessageRunCore (s : SchedState) (g : String) (outcome : Option Bool) :
    SchedState × List Ev :=
  let st := getG s g
  let step :=
    match outcome with
    | none => (st, (none : Option Nat), ([] : List Ev))
    | some true => ({ st with retryCount := 0 }, none, [])
    | some false => scheduleRetry g st
  let s1 := setG s g step.1
  let s2 :=
    match step.2.1 with
    | some d => { s1 with retryTimers := s1.retryTimers ++ [(g, d)] }
    | none => s1
  let st2 := getG s2 g
  let s3 := setG s2 g (clearRunRefs st2)
  let s4 := { s3 with
    activeCount := s3.activeCount - 1
    running := s3.running.erase (g, RunKind.messages) }
  (s4, step.2.2)

/-- Completion transition of a message-check run: result handling, the
finally block, then drainGroup. -/
def finishMessageRun (MAX : Nat) (s : SchedState) (g : String) (outcome : Option Bool) :
    SchedState × List Ev :=
  let r1 := finishMessageRunCore s g outcome
  let r2 := drainGroup MAX r1.1 g
  (r2.1, r1.2 ++ r2.2)

/-- runTask after its await, up to but excluding drainGroup: task errors
are caught and only logged, so success and failure share this path. -/
def finishTaskRunCore (s : SchedState) (g : String) (tid : String) :
    SchedState × List Ev :=
  let st := getG s g
  let s1 := setG s g (clearRunRefs st)
  let s2 := { s1 with
    activeCount := s1.activeCount - 1
    running := s1.running.erase (g, RunKind.task tid) }
  (s2, [])

/-- Completion transition of a queued-task run. -/
def finishTaskRun (MAX : Nat) (s : SchedState) (g : String) (tid : String) :
    SchedState × List Ev :=
  let r1 := finishTaskRunCore s g tid
  let r2 := drainGroup MAX r1.1 g
  (r2.1, r1.2 ++ r2.2)

/-- A pending retry timer fires: the callback re-enqueues a message check
unless a shutdown was requested meanwhile. -/
def fireRetry (MAX : Nat) (s : SchedState) (g : String) (d : Nat) :
    SchedState × List Ev :=
  let s1 := { s with retryTimers := s.retryTimers.erase (g, d) }
  if s1.shuttingDown then (s1, [])
  else enqueueMessageCheck MAX s1 g

/-- GroupQueue.shutdown: raise the flag and report the names of
still-running workers; no kill is ever issued. -/
def shutdown (s : SchedState) : SchedState × List String × List Ev :=
  let s1 := { s with shuttingDown := true }
  let names := s1.groups.filterMap fun p =>
    match p.2.process, p.2.processName with
    | some pr, some n => if !pr.killed && !(n == "") then some n else none
    | _, _ => none
  (s1, names, [])

/-- One atomic scheduler transition: an external admission call, a run
completion callback, a retry timer firing, or shutdown.  Completion and
timer steps are enabled only for runs and timers actually in flight. -/
inductive Step (MAX : Nat) : SchedState → SchedState → List Ev → Prop where
  | enqueueMsg (s : SchedState) (g : String) :
      Step MAX s (enqueueMessageCheck MAX s g).1 (enqueueMessageCheck MAX s g).2
  | enqueueTk (s : SchedState) (g tid : String) :
      Step MAX s (enqueueTask MAX s g tid).1 (enqueueTask MAX s g tid).2
  | register (s : SchedState) (g : String) (p : Proc) (pname : String)
      (folder chatJid : Option String) :
      Step MAX s (registerProcess s g p pname folder chatJid) []
  | send (s : SchedState) (g text : String) (chatJid : Option String) (w : Bool) :
      Step MAX s (sendMessage s g text chatJid w).2.1 (sendMessage s g text chatJid w).2.2
  | finishMsg (s : SchedState) (g : String) (outcome : Option Bool)
      (h : (g, RunKind.messages) ∈ s.running) :
      Step MAX s (finishMessageRun MAX s g outcome).1 (finishMessageRun MAX s g outcome).2
  | finishTk (s : SchedState) (g tid : String)
      (h : (g, RunKind.task tid) ∈ s.running) :
      Step MAX s (finishTaskRun MAX s g tid).1 (finishTaskRun MAX s g tid).2
  | fire (s : SchedState) (g : String) (d : Nat) (h : (g, d) ∈ s.retryTimers) :
      Step MAX s (fireRetry MAX s g d).1 (fireRetry MAX s g d).2
  | shut (s : SchedState) :
      Step MAX s (shutdown s).1 []

/-- Reachable scheduler states. -/
inductive Reach (MAX : Nat) : SchedState → Prop where
  | init : Reach MAX initState
  | step {s s' : SchedState} {evs : List Ev} :
      Reach MAX s → Step MAX s s' evs → Reach MAX s'

/-!
Router / cursor state machine, from the main module: the per-group message
cursor lastAgentTimestampByFolder, processGroupMessages (the callback the
queue runs for a message check) and the per-folder body of the poll loop
in startMessageLoop.
-/

/-- An inbound message row as the router reads it from storage. -/
structure Msg where
  chat_jid : String
  timestamp : String
  content : String
  deriving Repr, DecidableEq

/-- A registered group binding (fields the router branches on). -/
structure RegisteredGroup where
  name : String
  folder : String
  requiresTrigger : Option Bool
  deriving Repr, DecidableEq

/-- The cursor: lastAgentTimestampByFolder in memory plus the copy last
written to the router-state store by saveState. -/
structure CursorState where
  mem : List (String × String)
  store : List (String × String)
  deriving Repr, DecidableEq

/-- Read lastAgentTimestampByFolder[f] with the JS fallback to the empty
string: an absent key and a stored empty string both read as empty. -/
def curGet (l : List (String × String)) (f : String) : String :=
  match l with
  | [] => ""
  | (k, v) :: r => if k = f then v else curGet r f

/-- Assign lastAgentTimestampByFolder[f]. -/
def curAssign : List (String × String) → String → String → List (String × String)
  | [], f, v => [(f, v)]
  | (k, w) :: r, f, v => if k = f then (f, v) :: r else (k, w) :: curAssign r f v

/-- Update the in-memory cursor. -/
def curSet (c : CursorState) (f v : String) : CursorState :=
  { c with mem := curAssign c.mem f v }

/-- saveState: persist the in-memory cursor to the store. -/
def saveState (c : CursorState) : CursorState :=
  { c with store := c.mem }

/-- Observed outcome of one agent run: whether the terminal status was an
error, whether a streamed result carried an error status, and whether at
least one streamed output was delivered to the user via sendOutbound. -/
structure AgentRun where
  statusError : Bool
  hadError : Bool
  outputSent : Bool
  deriving Repr, DecidableEq

/-- Environment of one processGroupMessages call: what the collaborators
(group registry, message store, trigger regex, agent) return.  fetch maps
a since-timestamp to the rows getMessagesSinceForJids returns for the
group's bound JIDs; isTrigger models TRIGGER_PATTERN.test on trimmed
content. -/
structure RouterEnv where
  group : Option RegisteredGroup
  boundJids : List String
  fetch : String → List Msg
  isTrigger : String → Bool
  mainGroupFolder : String
  run : AgentRun


/-- processGroupMessages from the main module: returns the success flag
handed back to GroupQueue.runForGroup plus the updated cursor. -/
def processGroupMessages (env : RouterEnv) (folder : String) (cur : CursorState) :
    Bool × CursorState :=
  match env.group with
  | none => (true, cur)
  | some group =>
    if env.boundJids = [] then (true, cur)
    else
      let sinceTimestamp := curGet cur.mem folder
      let missed := env.fetch sinceTimestamp
      match missed with
      | [] => (true, cur)
      | m :: ms =>
        let isMainGroup := group.folder == env.mainGroupFolder
        if !isMainGroup && !(group.requiresTrigger == some false) &&
            !((m :: ms).any fun x => env.isTrigger x.content) then (true, cur)
        else
          let previousCursor := curGet cur.mem folder
          let lastTs := ((m :: ms).getLast (by simp)).timestamp
          let cur1 := saveState (curSet cur folder lastTs)
          if env.run.statusError || env.run.hadError then
            if env.run.outputSent then (true, cur1)
            else (false, saveState (curSet cur1 folder previousCursor))
          else (true, cur1)

/-- Environment of one per-folder iteration of the poll loop body in
startMessageLoop (the part after the global watermark advance). -/
structure PollEnv where
  group : Option RegisteredGroup
  isTrigger : String → Bool
  mainGroupFolder : String
  fetch : String → List Msg
  format : List Msg → String
  writeOk : Bool


/-- One folder's iteration of the poll loop: trigger gating, the
since-last-handed context pull, then either pipe-in to the active worker
(advancing and persisting the cursor) or fall back to
enqueueMessageCheck, which leaves the cursor for the message-check run
itself to advance. -/
def pollFolderStep (MAX : Nat) (env : PollEnv) (folder : String)
    (folderMessages : List Msg) (cur : CursorState) (s : SchedState) :
    CursorState × SchedState × List Ev :=
  match env.group with
  | none => (cur, s, [])
  | some group =>
    let isMainGroup := group.folder == env.mainGroupFolder
    let needsTrigger := !isMainGroup && !(group.requiresTrigger == some false)
    if needsTrigger && !(folderMessages.any fun m => env.isTrigger m.content) then
      (cur, s, [])
    else
      let allPending := env.fetch (curGet cur.mem folder)
      let messagesToSend := if allPending.length > 0 then allPending else folderMessages
      let targetChatJid := (messagesToSend.getLastD ⟨"", "", ""⟩).chat_jid
      let formatted := env.format messagesToSend
      let r := sendMessage s folder formatted (some targetChatJid) env.writeOk
      if r.1 then
        let lastTs := (messagesToSend.getLastD ⟨"", "", ""⟩).timestamp
        (saveState (curSet cur folder lastTs), r.2.1, r.2.2)
      else
        let r2 := enqueueMessageCheck MAX r.2.1 folder
        (cur, r2.1, r.2.2 ++ r2.2)

/-! Basic laws of the association-list map and the state helpers. -/

lemma lookupG_setPairs_self (l : List (String × GroupState)) (g : String) (v : GroupState) :
    lookupG (setPairs l g v) g = some v := by
  induction l with
  | nil => simp [setPairs, lookupG]
  | cons p r ih =>
    obtain ⟨k, w⟩ := p
    by_cases h : k = g
    · simp [setPairs, h, lookupG]
    · simp [setPairs, h, lookupG, ih]

lemma lookupG_setPairs_ne (l : List (String × GroupState)) (g g' : String) (v : GroupState)
    (h : g' ≠ g) : lookupG (setPairs l g v) g' = lookupG l g' := by
  induction l with
  | nil => simp [setPairs, lookupG, Ne.symm h]
  | cons p r ih =>
    obtain ⟨k, w⟩ := p
    by_cases hk : k = g
    · subst hk
      simp [setPairs, lookupG, Ne.symm h]
    · simp [setPairs, hk, lookupG, ih]

lemma lookupG_append (l₁ l₂ : List (String × GroupState)) (g : String) :
    lookupG (l₁ ++ l₂) g =
      match lookupG l₁ g with
      | some v => some v
      | none => lookupG l₂ g := by
  induction l₁ with
  | nil => simp [lookupG]
  | cons p r ih =>
    obtain ⟨k, w⟩ := p
    by_cases h : k = g <;> simp [lookupG, h, ih]

@[simp] lemma setG_groups (s : SchedState) (g : String) (v : GroupState) :
    (setG s g v).groups = setPairs s.groups g v := rfl

@[simp] lemma getG_fields (gr : List (String × GroupState)) (ac : Nat) (wg : List String)
    (sd : Bool) (ru : List (String × RunKind)) (rt : List (String × Nat)) (g : String) :
    getG (SchedState.mk gr ac wg sd ru rt) g = (lookupG gr g).getD initGroupState := rfl

@[simp] lemma getG_setG_self (s : SchedState) (g : String) (v : GroupState) :
    getG (setG s g v) g = v := by
  simp [getG, setG, lookupG_setPairs_self]

lemma getG_setG_ne (s : SchedState) (g g' : String) (v : GroupState) (h : g' ≠ g) :
    getG (setG s g v) g' = getG s g' := by
  simp [getG, setG, lookupG_setPairs_ne _ _ _ _ h]

@[simp] lemma getG_ensureGroup (s : SchedState) (g g' : String) :
    getG (ensureGroup s g) g' = getG s g' := by
  unfold ensureGroup
  split
  · rfl
  · rename_i hnone
    simp only [getG, lookupG_append]
    cases hl : lookupG s.groups g' with
    | some v => simp [hl]
    | none =>
      simp only [hl]
      by_cases h : g = g' <;> simp [lookupG, h, initGroupState]

@[simp] lemma setG_activeCount (s : SchedState) (g : String) (v : GroupState) :
    (setG s g v).activeCount = s.activeCount := rfl
@[simp] lemma setG_waitingGroups (s : SchedState) (g : String) (v : GroupState) :
    (setG s g v).waitingGroups = s.waitingGroups := rfl
@[simp] lemma setG_shuttingDown (s : SchedState) (g : String) (v : GroupState) :
    (setG s g v).shuttingDown = s.shuttingDown := rfl
@[simp] lemma setG_running (s : SchedState) (g : String) (v : GroupState) :
    (setG s g v).running = s.running := rfl
@[simp] lemma setG_retryTimers (s : SchedState) (g : String) (v : GroupState) :
    (setG s g v).retryTimers = s.retryTimers := rfl

@[simp] lemma ensureGroup_activeCount (s : SchedState) (g : String) :
    (ensureGroup s g).activeCount = s.activeCount := by
  unfold ensureGroup; split <;> rfl
@[simp] lemma ensureGroup_waitingGroups (s : SchedState) (g : String) :
    (ensureGroup s g).waitingGroups = s.waitingGroups := by
  unfold ensureGroup; split <;> rfl
@[simp] lemma ensureGroup_shuttingDown (s : SchedState) (g : String) :
    (ensureGroup s g).shuttingDown = s.shuttingDown := by
  unfold ensureGroup; split <;> rfl
@[simp] lemma ensureGroup_running (s : SchedState) (g : String) :
    (ensureGroup s g).running = s.running := by
  unfold ensureGroup; split <;> rfl
@[simp] lemma ensureGroup_retryTimers (s : SchedState) (g : String) :
    (ensureGroup s g).retryTimers = s.retryTimers := by
  unfold ensureGroup; split <;> rfl

/-! Characterization of the run start prefixes. -/

@[simp] lemma startMessageRunSync_activeCount (s : SchedState) (g : String) :
    (startMessageRunSync s g).1.activeCount = s.activeCount + 1 := by
  simp [startMessageRunSync]
@[simp] lemma startMessageRunSync_running (s : SchedState) (g : String) :
    (startMessageRunSync s g).1.running = s.running ++ [(g, RunKind.messages)] := by
  simp [startMessageRunSync]
@[simp] lemma startMessageRunSync_waitingGroups (s : SchedState) (g : String) :
    (startMessageRunSync s g).1.waitingGroups = s.waitingGroups := by
  simp [startMessageRunSync]
@[simp] lemma startMessageRunSync_shuttingDown (s : SchedState) (g : String) :
    (startMessageRunSync s g).1.shuttingDown = s.shuttingDown := by
  simp [startMessageRunSync]
@[simp] lemma startMessageRunSync_retryTimers (s : SchedState) (g : String) :
    (startMessageRunSync s g).1.retryTimers = s.retryTimers := by
  simp [startMessageRunSync]
@[simp] lemma startMessageRunSync_getG_self (s : SchedState) (g : String) :
    getG (startMessageRunSync s g).1 g =
      { getG s g with active := true, pendingMessages := false } := by
  simp [startMessageRunSync, lookupG_setPairs_self]
lemma startMessageRunSync_getG_ne (s : SchedState) (g g' : String) (h : g' ≠ g) :
    getG (startMessageRunSync s g).1 g' = getG s g' := by
  simp only [startMessageRunSync, getG_fields, setG_groups,
    lookupG_setPairs_ne _ _ _ _ h]
  exact getG_ensureGroup s g g'
@[simp] lemma startMessageRunSync_trace (s : SchedState) (g : String) :
    (startMessageRunSync s g).2 = [Ev.start g RunKind.messages] := rfl

@[simp] lemma startTaskRunSync_activeCount (s : SchedState) (g : String) (t : QueuedTask) :
    (startTaskRunSync s g t).1.activeCount = s.activeCount + 1 := by
  simp [startTaskRunSync]
@[simp] lemma startTaskRunSync_running (s : SchedState) (g : String) (t : QueuedTask) :
    (startTaskRunSync s g t).1.running = s.running ++ [(g, RunKind.task t.id)] := by
  simp [startTaskRunSync]
@[simp] lemma startTaskRunSync_waitingGroups (s : SchedState) (g : String) (t : QueuedTask) :
    (startTaskRunSync s g t).1.waitingGroups = s.waitingGroups := by
  simp [startTaskRunSync]
@[simp] lemma startTaskRunSync_shuttingDown (s : SchedState) (g : String) (t : QueuedTask) :
    (startTaskRunSync s g t).1.shuttingDown = s.shuttingDown := by
  simp [startTaskRunSync]
@[simp] lemma startTaskRunSync_retryTimers (s : SchedState) (g : String) (t : QueuedTask) :
    (startTaskRunSync s g t).1.retryTimers = s.retryTimers := by
  simp [startTaskRunSync]
@[simp] lemma startTaskRunSync_getG_self (s : SchedState) (g : String) (t : QueuedTask) :
    getG (startTaskRunSync s g t).1 g = { getG s g with active := true } := by
  simp [startTaskRunSync, lookupG_setPairs_self]
lemma startTaskRunSync_getG_ne (s : SchedState) (g g' : String) (t : QueuedTask) (h : g' ≠ g) :
    getG (startTaskRunSync s g t).1 g' = getG s g' := by
  simp only [startTaskRunSync, getG_fields, setG_groups,
    lookupG_setPairs_ne _ _ _ _ h]
  exact getG_ensureGroup s g g'
@[simp] lemma startTaskRunSync_trace (s : SchedState) (g : String) (t : QueuedTask) :
    (startTaskRunSync s g t).2 = [Ev.start g (RunKind.task t.id)] := rfl

/-! The scheduler invariant.  CoreInv is the part untouched by the waiting
list bookkeeping; it is what survives through the intermediate states of
the drainWaiting loop, where the waitingGroups field is stale. -/

structure CoreInv (MAX : Nat) (s : SchedState) : Prop where
  cnt : s.activeCount = s.running.length
  cle : s.activeCount ≤ MAX
  uniq : s.running.Pairwise (fun p q => p.1 ≠ q.1)
  aiff : ∀ g, (getG s g).active = true ↔ ∃ k, (g, k) ∈ s.running
  tnd : ∀ g, ((getG s g).pendingTasks.map QueuedTask.id).Nodup

structure SchedInv (MAX : Nat) (s : SchedState) : Prop where
  core : CoreInv MAX s
  wna : ∀ g ∈ s.waitingGroups, (getG s g).active = false
  wnd : s.waitingGroups.Nodup
  dvac : s.shuttingDown = false → s.activeCount < MAX → s.waitingGroups = []

lemma coreInv_of_fields_eq {MAX : Nat} {s s' : SchedState}
    (h : CoreInv MAX s)
    (hg : ∀ g, getG s' g = getG s g)
    (hac : s'.activeCount = s.activeCount)
    (hru : s'.running = s.running) : CoreInv MAX s' := by
  refine ⟨?_, ?_, ?_, ?_, ?_⟩
  · rw [hac, hru]; exact h.cnt
  · rw [hac]; exact h.cle
  · rw [hru]; exact h.uniq
  · intro g; rw [hg, hru]; exact h.aiff g
  · intro g; rw [hg]; exact h.tnd g

lemma coreInv_ensureGroup {MAX : Nat} {s : SchedState} (h : CoreInv MAX s) (g : String) :
    CoreInv MAX (ensureGroup s g) :=
  coreInv_of_fields_eq h (fun g' => getG_ensureGroup s g g') (by simp) (by simp)

lemma startMessageRunSync_coreInv {MAX : Nat} {s : SchedState} {g : String}
    (h : CoreInv MAX s) (hna : (getG s g).active = false) (hcap : s.activeCount < MAX) :
    CoreInv MAX (startMessageRunSync s g).1 := by
  have hnr : ∀ k, (g, k) ∉ s.running := by
    intro k hk
    have := (h.aiff g).mpr ⟨k, hk⟩
    simp [hna] at this
  refine ⟨?_, ?_, ?_, ?_, ?_⟩
  · simp [h.cnt]
  · simp; omega
  · simp only [startMessageRunSync_running, List.pairwise_append]
    refine ⟨h.uniq, by simp, ?_⟩
    rintro ⟨a1, a2⟩ ha b hb
    simp only [List.mem_singleton] at hb
    subst hb
    intro hfst
    simp only [] at hfst
    subst hfst
    exact hnr a2 ha
  · intro g'
    by_cases hg : g' = g
    · subst hg
      simp only [startMessageRunSync_getG_self, startMessageRunSync_running]
      constructor
      · intro _; exact ⟨RunKind.messages, by simp⟩
      · intro _; trivial
    · rw [startMessageRunSync_getG_ne s g g' hg]
      simp only [startMessageRunSync_running, List.mem_append, List.mem_singleton]
      rw [h.aiff g']
      constructor
      · rintro ⟨k, hk⟩; exact ⟨k, Or.inl hk⟩
      · rintro ⟨k, hk | hk⟩
        · exact ⟨k, hk⟩
        · simp [Prod.ext_iff] at hk
          exact absurd hk.1 hg
  · intro g'
    by_cases hg : g' = g
    · subst hg; simp only [startMessageRunSync_getG_self]; exact h.tnd g'
    · rw [startMessageRunSync_getG_ne s g g' hg]; exact h.tnd g'

lemma startTaskRunSync_coreInv {MAX : Nat} {s : SchedState} {g : String} {t : QueuedTask}
    (h : CoreInv MAX s) (hna : (getG s g).active = false) (hcap : s.activeCount < MAX) :
    CoreInv MAX (startTaskRunSync s g t).1 := by
  have hnr : ∀ k, (g, k) ∉ s.running := by
    intro k hk
    have := (h.aiff g).mpr ⟨k, hk⟩
    simp [hna] at this
  refine ⟨?_, ?_, ?_, ?_, ?_⟩
  · simp [h.cnt]
  · simp; omega
  · simp only [startTaskRunSync_running, List.pairwise_append]
    refine ⟨h.uniq, by simp, ?_⟩
    rintro ⟨a1, a2⟩ ha b hb
    simp only [List.mem_singleton] at hb
    subst hb
    intro hfst
    simp only [] at hfst
    subst hfst
    exact hnr a2 ha
  · intro g'
    by_cases hg : g' = g
    · subst hg
      simp only [startTaskRunSync_getG_self, startTaskRunSync_running]
      constructor
      · intro _; exact ⟨RunKind.task t.id, by simp⟩
      · intro _; trivial
    · rw [startTaskRunSync_getG_ne s g g' t hg]
      simp only [startTaskRunSync_running, List.mem_append, List.mem_singleton]
      rw [h.aiff g']
      constructor
      · rintro ⟨k, hk⟩; exact ⟨k, Or.inl hk⟩
      · rintro ⟨k, hk | hk⟩
        · exact ⟨k, hk⟩
        · simp [Prod.ext_iff] at hk
          exact absurd hk.1 hg
  · intro g'
    by_cases hg : g' = g
    · subst hg; simp only [startTaskRunSync_getG_self]; exact h.tnd g'
    · rw [startTaskRunSync_getG_ne s g g' t hg]; exact h.tnd g'

lemma coreInv_setG {MAX : Nat} {s : SchedState} {g : String} {v : GroupState}
    (h : CoreInv MAX s) (hact : v.active = (getG s g).active)
    (htnd : (v.pendingTasks.map QueuedTask.id).Nodup) :
    CoreInv MAX (setG s g v) := by
  refine ⟨by simpa using h.cnt, by simpa using h.cle, by simpa using h.uniq, ?_, ?_⟩
  · intro g'
    by_cases hg : g' = g
    · subst hg
      simp only [getG_setG_self, setG_running, hact]
      exact h.aiff g'
    · rw [getG_setG_ne _ _ _ _ hg]
      simpa using h.aiff g'
  · intro g'
    by_cases hg : g' = g
    · subst hg; simpa using htnd
    · rw [getG_setG_ne _ _ _ _ hg]; exact h.tnd g'

lemma drainWaitingAux_inv (MAX : Nat) :
    ∀ (w : List String) (s : SchedState),
      CoreInv MAX s →
      (∀ g ∈ w, (getG s g).active = false) →
      w.Nodup →
      CoreInv MAX (drainWaitingAux MAX w s).1 ∧
      (∀ g ∈ (drainWaitingAux MAX w s).1.waitingGroups,
          (getG (drainWaitingAux MAX w s).1 g).active = false) ∧
      (drainWaitingAux MAX w s).1.waitingGroups.Nodup ∧
      ((drainWaitingAux MAX w s).1.activeCount < MAX →
          (drainWaitingAux MAX w s).1.waitingGroups = []) ∧
      (drainWaitingAux MAX w s).1.shuttingDown = s.shuttingDown := by
  intro w
  induction w with
  | nil =>
    intro s hc _ _
    simp only [drainWaitingAux]
    refine ⟨coreInv_of_fields_eq hc (fun g => rfl) rfl rfl, by simp, by simp, fun _ => trivial, trivial⟩
  | cons g rest ih =>
    intro s hc hw hnd
    by_cases hcap : MAX ≤ s.activeCount
    · simp only [drainWaitingAux, if_pos hcap]
      refine ⟨coreInv_of_fields_eq hc (fun g => rfl) rfl rfl, ?_, ?_, ?_, trivial⟩
      · intro g' hg'; exact hw g' hg'
      · exact hnd
      · intro hlt; exact absurd hcap (Nat.not_le.mpr hlt)
    · have hlt : s.activeCount < MAX := Nat.lt_of_not_le hcap
      have hgna : (getG (ensureGroup s g) g).active = false := by
        rw [getG_ensureGroup]; exact hw g (List.mem_cons_self g rest)
      have hgnotin : g ∉ rest := (List.nodup_cons.mp hnd).1
      have hndr : rest.Nodup := (List.nodup_cons.mp hnd).2
      simp only [drainWaitingAux, if_neg hcap]
      cases hpt : (getG (ensureGroup s g) g).pendingTasks with
      | cons t ts =>
        simp only [hpt]
        have hc1 : CoreInv MAX (ensureGroup s g) := coreInv_ensureGroup hc g
        have hc2 : CoreInv MAX
            (setG (ensureGroup s g) g { getG (ensureGroup s g) g with pendingTasks := ts }) := by
          refine coreInv_setG hc1 rfl ?_
          have := hc1.tnd g
          rw [hpt] at this
          simpa using (List.nodup_cons.mp (by simpa using this)).2
        have hact2 : (getG (setG (ensureGroup s g) g
            { getG (ensureGroup s g) g with pendingTasks := ts }) g).active = false := by
          simpa using hgna
        have hc3 : CoreInv MAX (startTaskRunSync
            (setG (ensureGroup s g) g { getG (ensureGroup s g) g with pendingTasks := ts }) g t).1 :=
          startTaskRunSync_coreInv hc2 hact2 (by simpa using hlt)
        have hwr : ∀ g' ∈ rest,
            (getG (startTaskRunSync
              (setG (ensureGroup s g) g { getG (ensureGroup s g) g with pendingTasks := ts }) g t).1
              g').active = false := by
          intro g' hg'
          have hne : g' ≠ g := fun he => hgnotin (he ▸ hg')
          rw [startTaskRunSync_getG_ne _ _ _ _ hne, getG_setG_ne _ _ _ _ hne, getG_ensureGroup]
          exact hw g' (List.mem_cons_of_mem g hg')
        have := ih (startTaskRunSync
            (setG (ensureGroup s g) g { getG (ensureGroup s g) g with pendingTasks := ts }) g t).1
            hc3 hwr hndr
        refine ⟨this.1, this.2.1, this.2.2.1, this.2.2.2.1, ?_⟩
        rw [this.2.2.2.2]
        simp
      | nil =>
        simp only [hpt]
        by_cases hpm : (getG (ensureGroup s g) g).pendingMessages
        · simp only [if_pos hpm]
          have hc1 : CoreInv MAX (ensureGroup s g) := coreInv_ensureGroup hc g
          have hc3 : CoreInv MAX (startMessageRunSync (ensureGroup s g) g).1 :=
            startMessageRunSync_coreInv hc1 hgna (by simpa using hlt)
          have hwr : ∀ g' ∈ rest,
              (getG (startMessageRunSync (ensureGroup s g) g).1 g').active = false := by
            intro g' hg'
            have hne : g' ≠ g := fun he => hgnotin (he ▸ hg')
            rw [startMessageRunSync_getG_ne _ _ _ hne, getG_ensureGroup]
            exact hw g' (List.mem_cons_of_mem g hg')
          have := ih (startMessageRunSync (ensureGroup s g) g).1 hc3 hwr hndr
          refine ⟨this.1, this.2.1, this.2.2.1, this.2.2.2.1, ?_⟩
          rw [this.2.2.2.2]
          simp
        · simp only [if_neg hpm]
          have hc1 : CoreInv MAX (ensureGroup s g) := coreInv_ensureGroup hc g
          have hwr : ∀ g' ∈ rest, (getG (ensureGroup s g) g').active = false := by
            intro g' hg'
            rw [getG_ensureGroup]
            exact hw g' (List.mem_cons_of_mem g hg')
          have := ih (ensureGroup s g) hc1 hwr hndr
          refine ⟨this.1, this.2.1, this.2.2.1, this.2.2.2.1, ?_⟩
          rw [this.2.2.2.2]
          simp

lemma pairwise_fst_erase_not_mem {l : List (String × RunKind)} {g : String} {k : RunKind}
    (hp : l.Pairwise (fun p q => p.1 ≠ q.1)) (hm : (g, k) ∈ l) :
    ∀ k', (g, k') ∉ l.erase (g, k) := by
  induction l with
  | nil => simp
  | cons x xs ih =>
    intro k' hk'
    rw [List.pairwise_cons] at hp
    by_cases hx : x = (g, k)
    · subst hx
      rw [List.erase_cons_head] at hk'
      exact absurd rfl (hp.1 (g, k') hk')
    · rw [List.erase_cons_tail (by simpa using hx)] at hk'
      rcases List.mem_cons.mp hk' with he | hin
      · have : x.1 ≠ g := by
          have := hp.1 (g, k) (by
            rcases List.mem_cons.mp hm with hh | hh
            · exact absurd hh.symm hx
            · exact hh)
          simpa using this
        rw [← he] at this
        exact this rfl
      · have hmx : (g, k) ∈ xs := by
          rcases List.mem_cons.mp hm with hh | hh
          · exact absurd hh.symm hx
          · exact hh
        exact ih hp.2 hmx k' hin

lemma mem_erase_of_fst_ne {l : List (String × RunKind)} {g g' : String} {k k' : RunKind}
    (h : g' ≠ g) : ((g', k') ∈ l.erase (g, k)) ↔ (g', k') ∈ l := by
  apply List.mem_erase_of_ne
  simp only [ne_eq, Prod.mk.injEq, not_and]
  intro he
  exact absurd he h

@[simp] lemma clearRunRefs_active (st : GroupState) : (clearRunRefs st).active = false := rfl
@[simp] lemma clearRunRefs_pendingTasks (st : GroupState) :
    (clearRunRefs st).pendingTasks = st.pendingTasks := rfl
@[simp] lemma clearRunRefs_pendingMessages (st : GroupState) :
    (clearRunRefs st).pendingMessages = st.pendingMessages := rfl
@[simp] lemma clearRunRefs_retryCount (st : GroupState) :
    (clearRunRefs st).retryCount = st.retryCount := rfl

lemma finishMessageRunCore_fields (s : SchedState) (g : String) (outcome : Option Bool) :
    (finishMessageRunCore s g outcome).1.waitingGroups = s.waitingGroups ∧
    (finishMessageRunCore s g outcome).1.shuttingDown = s.shuttingDown ∧
    (finishMessageRunCore s g outcome).1.activeCount = s.activeCount - 1 ∧
    (finishMessageRunCore s g outcome).1.running = s.running.erase (g, RunKind.messages) ∧
    (getG (finishMessageRunCore s g outcome).1 g).active = false ∧
    (getG (finishMessageRunCore s g outcome).1 g).pendingTasks = (getG s g).pendingTasks ∧
    (getG (finishMessageRunCore s g outcome).1 g).pendingMessages =
      (getG s g).pendingMessages ∧
    (∀ g', g' ≠ g → getG (finishMessageRunCore s g outcome).1 g' = getG s g') := by
  cases outcome with
  | none =>
    refine ⟨rfl, rfl, rfl, rfl, ?_, ?_, ?_, ?_⟩
    · simp [finishMessageRunCore, lookupG_setPairs_self]
    · simp [finishMessageRunCore, lookupG_setPairs_self, clearRunRefs]
    · simp [finishMessageRunCore, lookupG_setPairs_self, clearRunRefs]
    · intro g' hg'
      simp only [finishMessageRunCore, getG_fields, setG_groups,
        lookupG_setPairs_ne _ _ _ _ hg']
      rfl
  | some b =>
    cases b with
    | true =>
      refine ⟨rfl, rfl, rfl, rfl, ?_, ?_, ?_, ?_⟩
      · simp [finishMessageRunCore, lookupG_setPairs_self]
      · simp [finishMessageRunCore, lookupG_setPairs_self, clearRunRefs]
      · simp [finishMessageRunCore, lookupG_setPairs_self, clearRunRefs]
      · intro g' hg'
        simp only [finishMessageRunCore, getG_fields, setG_groups,
          lookupG_setPairs_ne _ _ _ _ hg']
        rfl
    | false =>
      by_cases hrc : MAX_RETRIES < (getG s g).retryCount + 1
      · refine ⟨?_, ?_, ?_, ?_, ?_, ?_, ?_, ?_⟩
        · simp [finishMessageRunCore, scheduleRetry, hrc]
        · simp [finishMessageRunCore, scheduleRetry, hrc]
        · simp [finishMessageRunCore, scheduleRetry, hrc]
        · simp [finishMessageRunCore, scheduleRetry, hrc]
        · simp [finishMessageRunCore, scheduleRetry, hrc, lookupG_setPairs_self]
        · simp [finishMessageRunCore, scheduleRetry, hrc, lookupG_setPairs_self, clearRunRefs]
        · simp [finishMessageRunCore, scheduleRetry, hrc, lookupG_setPairs_self, clearRunRefs]
        · intro g' hg'
          simp only [finishMessageRunCore, scheduleRetry, if_pos hrc, getG_fields, setG_groups,
            lookupG_setPairs_ne _ _ _ _ hg']
          rfl
      · refine ⟨?_, ?_, ?_, ?_, ?_, ?_, ?_, ?_⟩
        · simp [finishMessageRunCore, scheduleRetry, hrc]
        · simp [finishMessageRunCore, scheduleRetry, hrc]
        · simp [finishMessageRunCore, scheduleRetry, hrc]
        · simp [finishMessageRunCore, scheduleRetry, hrc]
        · simp [finishMessageRunCore, scheduleRetry, hrc, lookupG_setPairs_self]
        · simp [finishMessageRunCore, scheduleRetry, hrc, lookupG_setPairs_self, clearRunRefs]
        · simp [finishMessageRunCore, scheduleRetry, hrc, lookupG_setPairs_self, clearRunRefs]
        · intro g' hg'
          simp only [finishMessageRunCore, scheduleRetry, if_neg hrc, getG_fields, setG_groups,
            lookupG_setPairs_ne _ _ _ _ hg']
          rfl

lemma finishTaskRunCore_fields (s : SchedState) (g : String) (tid : String) :
    (finishTaskRunCore s g tid).1.waitingGroups = s.waitingGroups ∧
    (finishTaskRunCore s g tid).1.shuttingDown = s.shuttingDown ∧
    (finishTaskRunCore s g tid).1.activeCount = s.activeCount - 1 ∧
    (finishTaskRunCore s g tid).1.running = s.running.erase (g, RunKind.task tid) ∧
    (getG (finishTaskRunCore s g tid).1 g) = clearRunRefs (getG s g) ∧
    (∀ g', g' ≠ g → getG (finishTaskRunCore s g tid).1 g' = getG s g') := by
  refine ⟨rfl, rfl, rfl, rfl, ?_, ?_⟩
  · simp [finishTaskRunCore, lookupG_setPairs_self]
  · intro g' hg'
    simp only [finishTaskRunCore, getG_fields, setG_groups, lookupG_setPairs_ne _ _ _ _ hg']
    rfl

lemma drainGroup_schedInv {MAX : Nat} {s : SchedState} {g : String}
    (hc : CoreInv MAX s)
    (hwna : ∀ g' ∈ s.waitingGroups, (getG s g').active = false)
    (hwnd : s.waitingGroups.Nodup)
    (hga : (getG s g).active = false)
    (hgw : g ∉ s.waitingGroups)
    (hcap : s.activeCount < MAX)
    (hdv : s.shuttingDown = false → s.activeCount + 1 < MAX → s.waitingGroups = []) :
    SchedInv MAX (drainGroup MAX s g).1 := by
  unfold drainGroup
  by_cases hsd : s.shuttingDown = true
  · simp only [hsd, if_true]
    exact ⟨hc, hwna, hwnd, fun hf => absurd hsd (by simp [hf])⟩
  · have hsdf : s.shuttingDown = false := Bool.not_eq_true _ ▸ (by simpa using hsd)
    simp only [hsdf, Bool.false_eq_true, if_false]
    have hgna : (getG (ensureGroup s g) g).active = false := by
      rw [getG_ensureGroup]; exact hga
    cases hpt : (getG (ensureGroup s g) g).pendingTasks with
    | cons t ts =>
      simp only [hpt]
      have hc1 : CoreInv MAX (ensureGroup s g) := coreInv_ensureGroup hc g
      have hc2 : CoreInv MAX
          (setG (ensureGroup s g) g { getG (ensureGroup s g) g with pendingTasks := ts }) := by
        refine coreInv_setG hc1 rfl ?_
        have := hc1.tnd g
        rw [hpt] at this
        exact (List.nodup_cons.mp (by simpa using this)).2
      have hc3 : CoreInv MAX (startTaskRunSync
          (setG (ensureGroup s g) g { getG (ensureGroup s g) g with pendingTasks := ts }) g t).1 :=
        startTaskRunSync_coreInv hc2 (by simpa using hgna) (by simpa using hcap)
      refine ⟨hc3, ?_, ?_, ?_⟩
      · intro g' hg'
        simp only [startTaskRunSync_waitingGroups, setG_waitingGroups,
          ensureGroup_waitingGroups] at hg'
        have hne : g' ≠ g := fun he => hgw (he ▸ hg')
        rw [startTaskRunSync_getG_ne _ _ _ _ hne, getG_setG_ne _ _ _ _ hne, getG_ensureGroup]
        exact hwna g' hg'
      · simpa using hwnd
      · intro hf hlt
        simp only [startTaskRunSync_shuttingDown, setG_shuttingDown,
          ensureGroup_shuttingDown] at hf
        simp only [startTaskRunSync_activeCount, setG_activeCount,
          ensureGroup_activeCount] at hlt
        simpa using hdv hf hlt
    | nil =>
      simp only [hpt]
      by_cases hpm : (getG (ensureGroup s g) g).pendingMessages = true
      · simp only [hpm, if_true]
        have hc1 : CoreInv MAX (ensureGroup s g) := coreInv_ensureGroup hc g
        have hc3 : CoreInv MAX (startMessageRunSync (ensureGroup s g) g).1 :=
          startMessageRunSync_coreInv hc1 hgna (by simpa using hcap)
        refine ⟨hc3, ?_, ?_, ?_⟩
        · intro g' hg'
          simp only [startMessageRunSync_waitingGroups, ensureGroup_waitingGroups] at hg'
          have hne : g' ≠ g := fun he => hgw (he ▸ hg')
          rw [startMessageRunSync_getG_ne _ _ _ hne, getG_ensureGroup]
          exact hwna g' hg'
        · simpa using hwnd
        · intro hf hlt
          simp only [startMessageRunSync_shuttingDown, ensureGroup_shuttingDown] at hf
          simp only [startMessageRunSync_activeCount, ensureGroup_activeCount] at hlt
          simpa using hdv hf hlt
      · have hpmf : (getG (ensureGroup s g) g).pendingMessages = false := by
          simpa using hpm
        simp only [hpmf, Bool.false_eq_true, if_false]
        unfold drainWaiting
        have hc1 : CoreInv MAX (ensureGroup s g) := coreInv_ensureGroup hc g
        have haux := drainWaitingAux_inv MAX (ensureGroup s g).waitingGroups (ensureGroup s g)
          hc1
          (by
            intro g' hg'
            rw [getG_ensureGroup]
            exact hwna g' (by simpa using hg'))
          (by simpa using hwnd)
        exact ⟨haux.1, haux.2.1, haux.2.2.1, fun _ => haux.2.2.2.1⟩

lemma finishMessageRun_schedInv {MAX : Nat} {s : SchedState} {g : String}
    {outcome : Option Bool}
    (h : SchedInv MAX s) (hm : (g, RunKind.messages) ∈ s.running) :
    SchedInv MAX (finishMessageRun MAX s g outcome).1 := by
  obtain ⟨hwg, hsd, hac, hru, hact, htk, hpm, hne⟩ := finishMessageRunCore_fields s g outcome
  have hone : s.activeCount ≥ 1 := by
    rw [h.core.cnt]
    exact List.length_pos.mpr (List.ne_nil_of_mem hm)
  have hcore : CoreInv MAX (finishMessageRunCore s g outcome).1 := by
    refine ⟨?_, ?_, ?_, ?_, ?_⟩
    · rw [hac, hru, List.length_erase_of_mem hm, h.core.cnt]
    · rw [hac]
      have := h.core.cle
      omega
    · rw [hru]
      exact h.core.uniq.sublist (List.erase_sublist _ _)
    · intro g'
      by_cases hg : g' = g
      · subst hg
        rw [hact, hru]
        constructor
        · intro hf; exact absurd hf (by simp)
        · rintro ⟨k, hk⟩
          exact absurd hk (pairwise_fst_erase_not_mem h.core.uniq hm k)
      · rw [hne g' hg, hru]
        rw [h.core.aiff g']
        constructor
        · rintro ⟨k, hk⟩
          exact ⟨k, (mem_erase_of_fst_ne hg).mpr hk⟩
        · rintro ⟨k, hk⟩
          exact ⟨k, (mem_erase_of_fst_ne hg).mp hk⟩
    · intro g'
      by_cases hg : g' = g
      · subst hg; rw [htk]; exact h.core.tnd g'
      · rw [hne g' hg]; exact h.core.tnd g'
  have hgw : g ∉ (finishMessageRunCore s g outcome).1.waitingGroups := by
    rw [hwg]
    intro hin
    have := h.wna g hin
    have ha : (getG s g).active = true := (h.core.aiff g).mpr ⟨RunKind.messages, hm⟩
    rw [ha] at this
    exact absurd this (by simp)
  refine drainGroup_schedInv hcore ?_ ?_ hact hgw ?_ ?_
  · intro g' hg'
    rw [hwg] at hg'
    by_cases hg : g' = g
    · subst hg; exact hact
    · rw [hne g' hg]; exact h.wna g' hg'
  · rw [hwg]; exact h.wnd
  · rw [hac]
    have := h.core.cle
    omega
  · intro hf hlt
    rw [hsd] at hf
    rw [hac] at hlt
    rw [hwg]
    exact h.dvac hf (by omega)

lemma finishTaskRun_schedInv {MAX : Nat} {s : SchedState} {g tid : String}
    (h : SchedInv MAX s) (hm : (g, RunKind.task tid) ∈ s.running) :
    SchedInv MAX (finishTaskRun MAX s g tid).1 := by
  obtain ⟨hwg, hsd, hac, hru, hgg, hne⟩ := finishTaskRunCore_fields s g tid
  have hact : (getG (finishTaskRunCore s g tid).1 g).active = false := by
    rw [hgg]; rfl
  have hone : s.activeCount ≥ 1 := by
    rw [h.core.cnt]
    exact List.length_pos.mpr (List.ne_nil_of_mem hm)
  have hcore : CoreInv MAX (finishTaskRunCore s g tid).1 := by
    refine ⟨?_, ?_, ?_, ?_, ?_⟩
    · rw [hac, hru, List.length_erase_of_mem hm, h.core.cnt]
    · rw [hac]
      have := h.core.cle
      omega
    · rw [hru]
      exact h.core.uniq.sublist (List.erase_sublist _ _)
    · intro g'
      by_cases hg : g' = g
      · subst hg
        rw [hact, hru]
        constructor
        · intro hf; exact absurd hf (by simp)
        · rintro ⟨k, hk⟩
          exact absurd hk (pairwise_fst_erase_not_mem h.core.uniq hm k)
      · rw [hne g' hg, hru]
        rw [h.core.aiff g']
        constructor
        · rintro ⟨k, hk⟩
          exact ⟨k, (mem_erase_of_fst_ne hg).mpr hk⟩
        · rintro ⟨k, hk⟩
          exact ⟨k, (mem_erase_of_fst_ne hg).mp hk⟩
    · intro g'
      by_cases hg : g' = g
      · subst hg; rw [hgg]; simpa using h.core.tnd g'
      · rw [hne g' hg]; exact h.core.tnd g'
  have hgw : g ∉ (finishTaskRunCore s g tid).1.waitingGroups := by
    rw [hwg]
    intro hin
    have := h.wna g hin
    have ha : (getG s g).active = true := (h.core.aiff g).mpr ⟨RunKind.task tid, hm⟩
    rw [ha] at this
    exact absurd this (by simp)
  refine drainGroup_schedInv hcore ?_ ?_ hact hgw ?_ ?_
  · intro g' hg'
    rw [hwg] at hg'
    by_cases hg : g' = g
    · subst hg; exact hact
    · rw [hne g' hg]; exact h.wna g' hg'
  · rw [hwg]; exact h.wnd
  · rw [hac]
    have := h.core.cle
    omega
  · intro hf hlt
    rw [hsd] at hf
    rw [hac] at hlt
    rw [hwg]
    exact h.dvac hf (by omega)

lemma schedInv_setG_flag {MAX : Nat} {s : SchedState} {g : String} {v : GroupState}
    (h : SchedInv MAX s)
    (hva : v.active = (getG s g).active)
    (hvt : (v.pendingTasks.map QueuedTask.id).Nodup) :
    SchedInv MAX (setG (ensureGroup s g) g v) := by
  refine ⟨coreInv_setG (coreInv_ensureGroup h.core g)
      (by rw [getG_ensureGroup]; exact hva) hvt, ?_, ?_, ?_⟩
  · intro g' hg'
    simp only [setG_waitingGroups, ensureGroup_waitingGroups] at hg'
    by_cases hgg : g' = g
    · subst hgg
      rw [getG_setG_self, hva]
      exact h.wna g' hg'
    · rw [getG_setG_ne _ _ _ _ hgg, getG_ensureGroup]
      exact h.wna g' hg'
  · simpa using h.wnd
  · intro hf hlt
    simp only [setG_shuttingDown, ensureGroup_shuttingDown] at hf
    simp only [setG_activeCount, ensureGroup_activeCount] at hlt
    simpa using h.dvac hf hlt

lemma schedInv_queueBranch {MAX : Nat} {s : SchedState} {g : String} {v : GroupState}
    (h : SchedInv MAX s)
    (hcap : MAX ≤ s.activeCount)
    (hva : v.active = false)
    (hactf : (getG s g).active = false)
    (hvt : (v.pendingTasks.map QueuedTask.id).Nodup) :
    SchedInv MAX (if g ∈ (setG (ensureGroup s g) g v).waitingGroups
        then setG (ensureGroup s g) g v
        else { setG (ensureGroup s g) g v with
               waitingGroups := (setG (ensureGroup s g) g v).waitingGroups ++ [g] }) := by
  have hbase : SchedInv MAX (setG (ensureGroup s g) g v) :=
    schedInv_setG_flag h (by rw [hva, hactf]) hvt
  split
  · exact hbase
  · rename_i hin
    refine ⟨coreInv_of_fields_eq hbase.core (fun g' => rfl) rfl rfl, ?_, ?_, ?_⟩
    · intro g' hg'
      simp only [setG_waitingGroups, ensureGroup_waitingGroups, List.mem_append,
        List.mem_singleton] at hg'
      rcases hg' with hg' | hg'
      · exact hbase.wna g' (by simpa using hg')
      · rw [hg']
        simp only [getG_fields, setG_groups, lookupG_setPairs_self, Option.getD_some]
        exact hva
    · simp only [setG_waitingGroups, ensureGroup_waitingGroups] at hin ⊢
      rw [List.nodup_append]
      refine ⟨h.wnd, by simp, ?_⟩
      intro a ha
      simp only [List.mem_singleton]
      intro hae
      subst hae
      exact hin ha
    · intro hf hlt
      simp only [setG_activeCount, ensureGroup_activeCount] at hlt
      omega

lemma enqueueMessageCheck_schedInv {MAX : Nat} {s : SchedState} {g : String}
    (h : SchedInv MAX s) : SchedInv MAX (enqueueMessageCheck MAX s g).1 := by
  unfold enqueueMessageCheck
  by_cases hsd : s.shuttingDown = true
  · simp only [hsd, if_true]
    exact h
  · have hsdf : s.shuttingDown = false := by simpa using hsd
    simp only [hsdf, Bool.false_eq_true, if_false]
    by_cases hact : (getG (ensureGroup s g) g).active = true
    · simp only [hact, if_true]
      exact schedInv_setG_flag h (by simpa using hact.symm) (by simpa using h.core.tnd g)
    · have hactf : (getG (ensureGroup s g) g).active = false := by simpa using hact
      simp only [hactf, Bool.false_eq_true, if_false]
      by_cases hcap : MAX ≤ (ensureGroup s g).activeCount
      · simp only [if_pos hcap]
        exact schedInv_queueBranch h (by simpa using hcap) rfl (by simpa using hactf)
          (by simpa using h.core.tnd g)
      · simp only [if_neg hcap]
        have hcap' : s.activeCount < MAX := by
          have := Nat.lt_of_not_le hcap
          simpa using this
        have hempty : s.waitingGroups = [] := h.dvac hsdf hcap'
        refine ⟨startMessageRunSync_coreInv (coreInv_ensureGroup h.core g) hactf
          (by simpa using hcap'), ?_, ?_, ?_⟩
        · intro g' hg'
          simp only [startMessageRunSync_waitingGroups, ensureGroup_waitingGroups, hempty] at hg'
          exact absurd hg' (List.not_mem_nil g')
        · simp [hempty]
        · intro _ _
          simp [hempty]

lemma enqueueTask_schedInv {MAX : Nat} {s : SchedState} {g tid : String}
    (h : SchedInv MAX s) : SchedInv MAX (enqueueTask MAX s g tid).1 := by
  unfold enqueueTask
  by_cases hsd : s.shuttingDown = true
  · simp only [hsd, if_true]
    exact h
  · have hsdf : s.shuttingDown = false := by simpa using hsd
    simp only [hsdf, Bool.false_eq_true, if_false]
    by_cases hdup : (getG (ensureGroup s g) g).pendingTasks.any (fun t => t.id = tid) = true
    · simp only [hdup, if_true]
      refine ⟨coreInv_ensureGroup h.core g, ?_, ?_, ?_⟩
      · intro g' hg'
        simp only [ensureGroup_waitingGroups] at hg'
        rw [getG_ensureGroup]
        exact h.wna g' hg'
      · simpa using h.wnd
      · intro hf hlt
        simp only [ensureGroup_shuttingDown] at hf
        simp only [ensureGroup_activeCount] at hlt
        simpa using h.dvac hf hlt
    · have hnodupNew : (((getG (ensureGroup s g) g).pendingTasks ++
          [(⟨tid⟩ : QueuedTask)]).map QueuedTask.id).Nodup := by
        simp only [List.map_append, List.map_cons, List.map_nil]
        rw [List.nodup_append]
        refine ⟨by simpa using h.core.tnd g, by simp, ?_⟩
        intro a ha
        simp only [List.mem_singleton]
        intro hae
        subst hae
        simp only [List.mem_map] at ha
        obtain ⟨t, ht, hti⟩ := ha
        simp only [List.any_eq_true, decide_eq_true_eq] at hdup
        exact hdup ⟨t, ht, hti⟩
      simp only [hdup, Bool.false_eq_true, if_false]
      by_cases hact : (getG (ensureGroup s g) g).active = true
      · simp only [hact, if_true]
        exact schedInv_setG_flag h (by simpa using hact.symm) hnodupNew
      · have hactf : (getG (ensureGroup s g) g).active = false := by simpa using hact
        simp only [hactf, Bool.false_eq_true, if_false]
        by_cases hcap : MAX ≤ (ensureGroup s g).activeCount
        · simp only [if_pos hcap]
          exact schedInv_queueBranch h (by simpa using hcap) rfl (by simpa using hactf)
            hnodupNew
        · simp only [if_neg hcap]
          have hcap' : s.activeCount < MAX := by
            have := Nat.lt_of_not_le hcap
            simpa using this
          have hempty : s.waitingGroups = [] := h.dvac hsdf hcap'
          refine ⟨startTaskRunSync_coreInv (coreInv_ensureGroup h.core g) hactf
            (by simpa using hcap'), ?_, ?_, ?_⟩
          · intro g' hg'
            simp only [startTaskRunSync_waitingGroups, ensureGroup_waitingGroups, hempty] at hg'
            exact absurd hg' (List.not_mem_nil g')
          · simp [hempty]
          · intro _ _
            simp [hempty]

lemma registerProcess_getG (s : SchedState) (g : String) (p : Proc) (pname : String)
    (folder chatJid : Option String) (g' : String) :
    (getG (registerProcess s g p pname folder chatJid) g').active = (getG s g').active ∧
    (getG (registerProcess s g p pname folder chatJid) g').pendingTasks =
      (getG s g').pendingTasks := by
  unfold registerProcess
  by_cases hg : g' = g
  · subst hg
    rw [getG_setG_self]
    constructor <;> (split <;> split <;> simp)
  · rw [getG_setG_ne _ _ _ _ hg, getG_ensureGroup]
    exact ⟨rfl, rfl⟩

lemma registerProcess_fields (s : SchedState) (g : String) (p : Proc) (pname : String)
    (folder chatJid : Option String) :
    (registerProcess s g p pname folder chatJid).activeCount = s.activeCount ∧
    (registerProcess s g p pname folder chatJid).waitingGroups = s.waitingGroups ∧
    (registerProcess s g p pname folder chatJid).shuttingDown = s.shuttingDown ∧
    (registerProcess s g p pname folder chatJid).running = s.running := by
  unfold registerProcess
  refine ⟨?_, ?_, ?_, ?_⟩ <;> simp

lemma registerProcess_schedInv {MAX : Nat} {s : SchedState} {g : String} {p : Proc}
    {pname : String} {folder chatJid : Option String} (h : SchedInv MAX s) :
    SchedInv MAX (registerProcess s g p pname folder chatJid) := by
  obtain ⟨hac, hwg, hsd, hru⟩ := registerProcess_fields s g p pname folder chatJid
  refine ⟨⟨?_, ?_, ?_, ?_, ?_⟩, ?_, ?_, ?_⟩
  · rw [hac, hru]; exact h.core.cnt
  · rw [hac]; exact h.core.cle
  · rw [hru]; exact h.core.uniq
  · intro g'
    rw [(registerProcess_getG s g p pname folder chatJid g').1, hru]
    exact h.core.aiff g'
  · intro g'
    rw [(registerProcess_getG s g p pname folder chatJid g').2]
    exact h.core.tnd g'
  · intro g' hg'
    rw [hwg] at hg'
    rw [(registerProcess_getG s g p pname folder chatJid g').1]
    exact h.wna g' hg'
  · rw [hwg]; exact h.wnd
  · intro hf hlt
    rw [hsd] at hf
    rw [hac] at hlt
    rw [hwg]
    exact h.dvac hf hlt

lemma ensureGroup_schedInv {MAX : Nat} {s : SchedState} (h : SchedInv MAX s) (g : String) :
    SchedInv MAX (ensureGroup s g) := by
  refine ⟨coreInv_ensureGroup h.core g, ?_, ?_, ?_⟩
  · intro g' hg'
    simp only [ensureGroup_waitingGroups] at hg'
    rw [getG_ensureGroup]
    exact h.wna g' hg'
  · simpa using h.wnd
  · intro hf hlt
    simp only [ensureGroup_shuttingDown] at hf
    simp only [ensureGroup_activeCount] at hlt
    simpa using h.dvac hf hlt

lemma sendMessage_eq (s : SchedState) (g text : String) (chatJid : Option String) (w : Bool) :
    sendMessage s g text chatJid w =
      if (!(getG (ensureGroup s g) g).active ||
          !(truthy (getG (ensureGroup s g) g).groupFolder)) = true
      then (false, ensureGroup s g, ([] : List Ev))
      else if (truthy chatJid && truthy (getG (ensureGroup s g) g).activeChatJid &&
          !((getG (ensureGroup s g) g).activeChatJid == chatJid)) = true
      then (false, ensureGroup s g, ([] : List Ev))
      else if w then (true, ensureGroup s g, [Ev.mailboxWrite g text])
      else (false, ensureGroup s g, ([] : List Ev)) := rfl

lemma sendMessage_state (s : SchedState) (g text : String) (chatJid : Option String) (w : Bool) :
    (sendMessage s g text chatJid w).2.1 = ensureGroup s g := by
  rw [sendMessage_eq]
  split
  · rfl
  · split
    · rfl
    · split <;> rfl

lemma retryTimersSet_schedInv {MAX : Nat} {s : SchedState} (h : SchedInv MAX s)
    (l : List (String × Nat)) : SchedInv MAX { s with retryTimers := l } := by
  refine ⟨coreInv_of_fields_eq h.core (fun g => rfl) rfl rfl, ?_, h.wnd, h.dvac⟩
  intro g hg
  exact h.wna g hg

lemma fireRetry_schedInv {MAX : Nat} {s : SchedState} {g : String} {d : Nat}
    (h : SchedInv MAX s) : SchedInv MAX (fireRetry MAX s g d).1 := by
  show SchedInv MAX ((if s.shuttingDown = true
      then ({ s with retryTimers := s.retryTimers.erase (g, d) }, ([] : List Ev))
      else enqueueMessageCheck MAX { s with retryTimers := s.retryTimers.erase (g, d) } g)).1
  split
  · exact retryTimersSet_schedInv h _
  · exact enqueueMessageCheck_schedInv (retryTimersSet_schedInv h _)

lemma shutdown_schedInv {MAX : Nat} {s : SchedState} (h : SchedInv MAX s) :
    SchedInv MAX (shutdown s).1 := by
  refine ⟨coreInv_of_fields_eq h.core (fun g => rfl) rfl rfl, ?_, h.wnd, ?_⟩
  · intro g hg
    exact h.wna g hg
  · intro hf _
    simp [shutdown] at hf

lemma step_schedInv {MAX : Nat} {s s' : SchedState} {evs : List Ev}
    (h : SchedInv MAX s) (hs : Step MAX s s' evs) : SchedInv MAX s' := by
  cases hs with
  | enqueueMsg g => exact enqueueMessageCheck_schedInv h
  | enqueueTk g tid => exact enqueueTask_schedInv h
  | register g p pname folder chatJid => exact registerProcess_schedInv h
  | send g text chatJid w =>
    rw [sendMessage_state]
    exact ensureGroup_schedInv h g
  | finishMsg g outcome hm => exact finishMessageRun_schedInv h hm
  | finishTk g tid hm => exact finishTaskRun_schedInv h hm
  | fire g d hm => exact fireRetry_schedInv h
  | shut => exact shutdown_schedInv h

lemma initState_schedInv (MAX : Nat) : SchedInv MAX initState := by
  refine ⟨⟨rfl, Nat.zero_le MAX, List.Pairwise.nil, ?_, ?_⟩,
    by simp [initState], by simp [initState], fun _ _ => rfl⟩
  · intro g
    simp [initState, getG, lookupG, initGroupState]
  · intro g
    simp [initState, getG, lookupG, initGroupState]

lemma reach_schedInv {MAX : Nat} {s : SchedState} (h : Reach MAX s) : SchedInv MAX s := by
  induction h with
  | init => exact initState_schedInv MAX
  | step hr hs ih => exact step_schedInv ih hs

/-! Trace lemmas: which observable events each operation can emit, and in
which order the waiting list is served. -/

/-- The groups of the run-start events of a trace, in order. -/
def startsOf (evs : List Ev) : List String :=
  evs.filterMap fun e =>
    match e with
    | Ev.start g _ => some g
    | _ => none

lemma startsOf_append (l₁ l₂ : List Ev) :
    startsOf (l₁ ++ l₂) = startsOf l₁ ++ startsOf l₂ := by
  simp [startsOf, List.filterMap_append]

lemma drainWaitingAux_starts_sublist (MAX : Nat) :
    ∀ (w : List String) (s : SchedState),
      (startsOf (drainWaitingAux MAX w s).2).Sublist w := by
  intro w
  induction w with
  | nil =>
    intro s
    simp [drainWaitingAux, startsOf]
  | cons g rest ih =>
    intro s
    by_cases hcap : MAX ≤ s.activeCount
    · simp [drainWaitingAux, if_pos hcap, startsOf]
    · simp only [drainWaitingAux, if_neg hcap]
      cases hpt : (getG (ensureGroup s g) g).pendingTasks with
      | cons t ts =>
        simp only [hpt]
        rw [startsOf_append, startTaskRunSync_trace]
        have hone : startsOf [Ev.start g (RunKind.task t.id)] = [g] := rfl
        rw [hone]
        exact (ih _).cons₂ g
      | nil =>
        simp only [hpt]
        by_cases hpm : (getG (ensureGroup s g) g).pendingMessages = true
        · simp only [hpm, if_true]
          rw [startsOf_append, startMessageRunSync_trace]
          have hone : startsOf [Ev.start g RunKind.messages] = [g] := rfl
          rw [hone]
          exact (ih _).cons₂ g
        · simp only [hpm, Bool.false_eq_true, if_false]
          exact (ih _).cons g

lemma drainWaitingAux_waiting_subset (MAX : Nat) :
    ∀ (w : List String) (s : SchedState),
      ∀ x ∈ (drainWaitingAux MAX w s).1.waitingGroups, x ∈ w := by
  intro w
  induction w with
  | nil =>
    intro s x hx
    simp [drainWaitingAux] at hx
  | cons g rest ih =>
    intro s x hx
    by_cases hcap : MAX ≤ s.activeCount
    · simp only [drainWaitingAux, if_pos hcap] at hx
      exact hx
    · simp only [drainWaitingAux, if_neg hcap] at hx
      cases hpt : (getG (ensureGroup s g) g).pendingTasks with
      | cons t ts =>
        rw [hpt] at hx
        simp only [] at hx
        exact List.mem_cons_of_mem g (ih _ x hx)
      | nil =>
        rw [hpt] at hx
        by_cases hpm : (getG (ensureGroup s g) g).pendingMessages = true
        · simp only [hpm, if_true] at hx
          exact List.mem_cons_of_mem g (ih _ x hx)
        · simp only [hpm, Bool.false_eq_true, if_false] at hx
          exact List.mem_cons_of_mem g (ih _ x hx)

lemma drainWaitingAux_trace_isStart (MAX : Nat) :
    ∀ (w : List String) (s : SchedState),
      ∀ e ∈ (drainWaitingAux MAX w s).2, ∃ g k, e = Ev.start g k := by
  intro w
  induction w with
  | nil =>
    intro s e he
    simp [drainWaitingAux] at he
  | cons g rest ih =>
    intro s e he
    by_cases hcap : MAX ≤ s.activeCount
    · simp [drainWaitingAux, if_pos hcap] at he
    · simp only [drainWaitingAux, if_neg hcap] at he
      cases hpt : (getG (ensureGroup s g) g).pendingTasks with
      | cons t ts =>
        rw [hpt] at he
        simp only [List.mem_append] at he
        rcases he with he | he
        · rw [startTaskRunSync_trace] at he
          simp only [List.mem_singleton] at he
          exact ⟨g, RunKind.task t.id, he⟩
        · exact ih _ e he
      | nil =>
        rw [hpt] at he
        by_cases hpm : (getG (ensureGroup s g) g).pendingMessages = true
        · simp only [hpm, if_true, List.mem_append] at he
          rcases he with he | he
          · rw [startMessageRunSync_trace] at he
            simp only [List.mem_singleton] at he
            exact ⟨g, RunKind.messages, he⟩
          · exact ih _ e he
        · simp only [hpm, Bool.false_eq_true, if_false] at he
          exact ih _ e he

lemma drainGroup_trace_isStart (MAX : Nat) (s : SchedState) (g : String) :
    ∀ e ∈ (drainGroup MAX s g).2, ∃ g' k, e = Ev.start g' k := by
  unfold drainGroup
  by_cases hsd : s.shuttingDown = true
  · simp [hsd]
  · have hsdf : s.shuttingDown = false := by simpa using hsd
    simp only [hsdf, Bool.false_eq_true, if_false]
    cases hpt : (getG (ensureGroup s g) g).pendingTasks with
    | cons t ts =>
      simp only [hpt]
      intro e he
      rw [startTaskRunSync_trace] at he
      simp only [List.mem_singleton] at he
      exact ⟨g, RunKind.task t.id, he⟩
    | nil =>
      simp only [hpt]
      by_cases hpm : (getG (ensureGroup s g) g).pendingMessages = true
      · simp only [hpm, if_true]
        intro e he
        rw [startMessageRunSync_trace] at he
        simp only [List.mem_singleton] at he
        exact ⟨g, RunKind.messages, he⟩
      · simp only [hpm, Bool.false_eq_true, if_false]
        exact drainWaitingAux_trace_isStart MAX _ _

lemma enqueueMessageCheck_trace (MAX : Nat) (s : SchedState) (g : String) :
    (enqueueMessageCheck MAX s g).2 = [] ∨
    (enqueueMessageCheck MAX s g).2 = [Ev.start g RunKind.messages] := by
  unfold enqueueMessageCheck
  by_cases hsd : s.shuttingDown = true
  · simp [hsd]
  · by_cases hact : (getG s g).active = true
    · simp [hsd, hact]
    · by_cases hcap : MAX ≤ s.activeCount
      · simp [hsd, hact, hcap]
      · simp [hsd, hact, hcap]

lemma enqueueTask_trace (MAX : Nat) (s : SchedState) (g tid : String) :
    (enqueueTask MAX s g tid).2 = [] ∨
    (enqueueTask MAX s g tid).2 = [Ev.start g (RunKind.task tid)] := by
  unfold enqueueTask
  by_cases hsd : s.shuttingDown = true
  · simp [hsd]
  · by_cases hdup : ((getG s g).pendingTasks.any fun t => decide (t.id = tid)) = true
    · simp [hsd, hdup]
    · by_cases hact : (getG s g).active = true
      · simp [hsd, hdup, hact]
      · by_cases hcap : MAX ≤ s.activeCount
        · simp [hsd, hdup, hact, hcap]
        · simp [hsd, hdup, hact, hcap]

lemma sendMessage_trace (s : SchedState) (g text : String) (chatJid : Option String) (w : Bool) :
    (sendMessage s g text chatJid w).2.2 = [] ∨
    (sendMessage s g text chatJid w).2.2 = [Ev.mailboxWrite g text] := by
  rw [sendMessage_eq]
  split
  · left; rfl
  · split
    · left; rfl
    · split
      · right; rfl
      · left; rfl

lemma finishMessageRunCore_trace (s : SchedState) (g : String) (outcome : Option Bool) :
    (finishMessageRunCore s g outcome).2 = [] ∨
    (∃ d, (finishMessageRunCore s g outcome).2 = [Ev.retryScheduled g d]) ∨
    (finishMessageRunCore s g outcome).2 = [Ev.retryDropped g] := by
  cases outcome with
  | none => left; rfl
  | some b =>
    cases b with
    | true => left; rfl
    | false =>
      by_cases hrc : MAX_RETRIES < (getG s g).retryCount + 1
      · right; right
        simp [finishMessageRunCore, scheduleRetry, hrc]
      · right; left
        exact ⟨BASE_RETRY_MS * 2 ^ ((getG s g).retryCount + 1 - 1),
          by simp [finishMessageRunCore, scheduleRetry, hrc]⟩

lemma fireRetry_eq (MAX : Nat) (s : SchedState) (g : String) (d : Nat) :
    fireRetry MAX s g d =
      if s.shuttingDown = true
      then ({ s with retryTimers := s.retryTimers.erase (g, d) }, ([] : List Ev))
      else enqueueMessageCheck MAX { s with retryTimers := s.retryTimers.erase (g, d) } g :=
  rfl

lemma mem_startsOf {g : String} {k : RunKind} {evs : List Ev}
    (h : Ev.start g k ∈ evs) : g ∈ startsOf evs := by
  simp only [startsOf, List.mem_filterMap]
  exact ⟨Ev.start g k, h, rfl⟩

lemma step_no_kill {MAX : Nat} {s s' : SchedState} {evs : List Ev}
    (hs : Step MAX s s' evs) : ∀ n, Ev.kill n ∉ evs := by
  intro n hin
  cases hs with
  | enqueueMsg g =>
    rcases enqueueMessageCheck_trace MAX s g with he | he <;> rw [he] at hin <;> simp at hin
  | enqueueTk g tid =>
    rcases enqueueTask_trace MAX s g tid with he | he <;> rw [he] at hin <;> simp at hin
  | register g p pname folder chatJid => simp at hin
  | send g text chatJid w =>
    rcases sendMessage_trace s g text chatJid w with he | he <;> rw [he] at hin <;> simp at hin
  | finishMsg g outcome hm =>
    have he : (finishMessageRun MAX s g outcome).2 =
        (finishMessageRunCore s g outcome).2 ++
          (drainGroup MAX (finishMessageRunCore s g outcome).1 g).2 := rfl
    rw [he, List.mem_append] at hin
    rcases hin with hin | hin
    · rcases finishMessageRunCore_trace s g outcome with h1 | ⟨d, h1⟩ | h1 <;>
        rw [h1] at hin <;> simp at hin
    · obtain ⟨g', k, hk⟩ := drainGroup_trace_isStart MAX _ g _ hin
      exact absurd hk (by simp)
  | finishTk g tid hm =>
    have he : (finishTaskRun MAX s g tid).2 =
        (drainGroup MAX (finishTaskRunCore s g tid).1 g).2 := by
      show ((drainGroup MAX (finishTaskRunCore s g tid).1 g).1,
        [] ++ (drainGroup MAX (finishTaskRunCore s g tid).1 g).2).2 = _
      simp
    rw [he] at hin
    obtain ⟨g', k, hk⟩ := drainGroup_trace_isStart MAX _ g _ hin
    exact absurd hk (by simp)
  | fire g d hm =>
    rw [fireRetry_eq] at hin
    by_cases hsd : s.shuttingDown = true
    · rw [if_pos hsd] at hin
      simp at hin
    · rw [if_neg hsd] at hin
      rcases enqueueMessageCheck_trace MAX
          { s with retryTimers := s.retryTimers.erase (g, d) } g with he | he <;>
        rw [he] at hin <;> simp at hin
  | shut => simp at hin

lemma enqueueMessageCheck_shutdown (MAX : Nat) (s : SchedState) (g : String)
    (h : s.shuttingDown = true) : enqueueMessageCheck MAX s g = (s, []) := by
  unfold enqueueMessageCheck
  simp [h]

lemma enqueueTask_shutdown (MAX : Nat) (s : SchedState) (g tid : String)
    (h : s.shuttingDown = true) : enqueueTask MAX s g tid = (s, []) := by
  unfold enqueueTask
  simp [h]

lemma lookupG_isSome_of_tasks {s : SchedState} {g : String}
    (h : (getG s g).pendingTasks ≠ []) : (lookupG s.groups g).isSome := by
  unfold getG at h
  cases hl : lookupG s.groups g with
  | some v => simp
  | none =>
    rw [hl] at h
    simp [initGroupState] at h

lemma ensureGroup_eq_self_of_tasks {s : SchedState} {g : String}
    (h : (getG s g).pendingTasks ≠ []) : ensureGroup s g = s := by
  unfold ensureGroup
  rw [if_pos (lookupG_isSome_of_tasks h)]

/-! Cursor map laws. -/

lemma curGet_curAssign_self (l : List (String × String)) (f v : String) :
    curGet (curAssign l f v) f = v := by
  induction l with
  | nil => simp [curAssign, curGet]
  | cons p r ih =>
    obtain ⟨k, w⟩ := p
    by_cases h : k = f
    · simp [curAssign, h, curGet]
    · simp [curAssign, h, curGet, ih]

lemma curGet_curAssign_ne (l : List (String × String)) (f f' v : String) (h : f' ≠ f) :
    curGet (curAssign l f v) f' = curGet l f' := by
  induction l with
  | nil => simp [curAssign, curGet, Ne.symm h]
  | cons p r ih =>
    obtain ⟨k, w⟩ := p
    by_cases hk : k = f
    · subst hk
      simp [curAssign, curGet, Ne.symm h]
    · simp [curAssign, hk, curGet, ih]

lemma finishMessageRunCore_getG_cleared (s : SchedState) (g : String) (outcome : Option Bool) :
    (getG (finishMessageRunCore s g outcome).1 g).process = none ∧
    (getG (finishMessageRunCore s g outcome).1 g).processName = none ∧
    (getG (finishMessageRunCore s g outcome).1 g).groupFolder = none ∧
    (getG (finishMessageRunCore s g outcome).1 g).activeChatJid = none := by
  cases outcome with
  | none =>
    refine ⟨?_, ?_, ?_, ?_⟩ <;>
      simp [finishMessageRunCore, lookupG_setPairs_self, clearRunRefs]
  | some b =>
    cases b with
    | true =>
      refine ⟨?_, ?_, ?_, ?_⟩ <;>
        simp [finishMessageRunCore, lookupG_setPairs_self, clearRunRefs]
    | false =>
      by_cases hrc : MAX_RETRIES < (getG s g).retryCount + 1 <;>
        (refine ⟨?_, ?_, ?_, ?_⟩ <;>
          simp [finishMessageRunCore, scheduleRetry, hrc, lookupG_setPairs_self, clearRunRefs])

lemma finishMessageRunCore_success_retryCount (s : SchedState) (g : String) :
    (getG (finishMessageRunCore s g (some true)).1 g).retryCount = 0 := by
  simp [finishMessageRunCore, lookupG_setPairs_self, clearRunRefs]

/-! Claim theorems. -/

/-- C1: in every reachable scheduler state, at most one run is in flight
per GroupKey: the group keys of the in-flight run list are pairwise
distinct and a group's active flag holds exactly when it has an in-flight
run; moreover the number of in-flight runs equals the global activeCount
and never exceeds MAX_CONCURRENT_AGENTS (here the parameter MAX).  The
Step relation covers every path that starts a run: enqueueMessageCheck,
enqueueTask, and the drainGroup/drainWaiting calls performed when a run
exits. -/
theorem c1_concurrency_invariant (MAX : Nat) (s : SchedState) (h : Reach MAX s) :
    s.running.Pairwise (fun p q => p.1 ≠ q.1) ∧
    (∀ g, (getG s g).active = true ↔ ∃ k, (g, k) ∈ s.running) ∧
    s.activeCount = s.running.length ∧
    s.activeCount ≤ MAX := by
  have hi := reach_schedInv h
  exact ⟨hi.core.uniq, hi.core.aiff, hi.core.cnt, hi.core.cle⟩

def exState1 : SchedState :=
  (enqueueMessageCheck 2 (enqueueMessageCheck 2 initState "g1").1 "g2").1

/-- Witness for C1 at a concrete reachable state: two message checks
enqueued with MAX_CONCURRENT_AGENTS = 2, both running. -/
theorem c1_concurrency_invariant_witness :
    exState1.running.Pairwise (fun p q => p.1 ≠ q.1) ∧
    ((getG exState1 "g1").active = true ↔ ∃ k, ("g1", k) ∈ exState1.running) ∧
    exState1.activeCount = exState1.running.length ∧
    exState1.activeCount ≤ 2 := by
  have h := c1_concurrency_invariant 2 exState1
    (Reach.step (Reach.step Reach.init (Step.enqueueMsg initState "g1"))
      (Step.enqueueMsg (enqueueMessageCheck 2 initState "g1").1 "g2"))
  exact ⟨h.1, h.2.1 "g1", h.2.2.1, h.2.2.2⟩

/-- C3: the backoff schedule of GroupQueue.scheduleRetry.  With the
group's consecutive-failure count at n before the call and n + 1 ≤
MAX_RETRIES = 5, the call sets retryCount to n + 1 and registers a timer
of exactly BASE_RETRY_MS * 2 ^ n = 5000 * 2 ^ ((n+1) - 1) milliseconds,
giving the delay sequence 5000, 10000, 20000, 40000, 80000 for the new
retryCount 1..5; with retryCount already at 5 (the 6th consecutive
failure) no timer is registered and retryCount resets to 0, dropping the
group until new work arrives; and a successful message-check run resets
retryCount to 0. -/
theorem c3_backoff_schedule (g : String) (st : GroupState) (s : SchedState) :
    (∀ n : Nat, st.retryCount = n → n + 1 ≤ MAX_RETRIES →
      scheduleRetry g st =
        ({ st with retryCount := n + 1 }, some (BASE_RETRY_MS * 2 ^ n),
         [Ev.retryScheduled g (BASE_RETRY_MS * 2 ^ n)])) ∧
    ((List.range MAX_RETRIES).map (fun n => BASE_RETRY_MS * 2 ^ n) =
      [5000, 10000, 20000, 40000, 80000]) ∧
    (st.retryCount = MAX_RETRIES →
      scheduleRetry g st = ({ st with retryCount := 0 }, none, [Ev.retryDropped g])) ∧
    ((getG (finishMessageRunCore s g (some true)).1 g).retryCount = 0) := by
  refine ⟨?_, by decide, ?_, finishMessageRunCore_success_retryCount s g⟩
  · intro n hn hle
    unfold scheduleRetry
    rw [hn]
    rw [if_neg (by omega)]
    simp
  · intro hn
    unfold scheduleRetry
    rw [hn]
    rw [if_pos (by decide)]

/-- Witness for C3: first failure schedules a 5000 ms retry; a failure at
retryCount 5 drops with no timer and resets to 0. -/
theorem c3_backoff_schedule_witness :
    scheduleRetry "g" initGroupState =
      ({ initGroupState with retryCount := 1 }, some 5000, [Ev.retryScheduled "g" 5000]) ∧
    scheduleRetry "g" { initGroupState with retryCount := 5 } =
      ({ { initGroupState with retryCount := 5 } with retryCount := 0 }, none,
        [Ev.retryDropped "g"]) := by
  constructor
  · have h := (c3_backoff_schedule "g" initGroupState initState).1 0 rfl (by decide)
    simpa using h
  · exact (c3_backoff_schedule "g" { initGroupState with retryCount := 5 } initState).2.2.1 rfl

/-- C5: enqueueTask deduplicates by task id against the pending queue:
a call whose id is already pending is a complete no-op (state and trace
unchanged), and in every reachable state no group's pendingTasks holds
two entries with the same id, so enqueueing an id twice while it is
still pending yields exactly one queued (hence one executed) task. -/
theorem c5_task_dedup (MAX : Nat) :
    (∀ (s : SchedState) (g tid : String),
      ((getG s g).pendingTasks.any fun t => decide (t.id = tid)) = true →
      enqueueTask MAX s g tid = (s, [])) ∧
    (∀ s : SchedState, Reach MAX s →
      ∀ g : String, ((getG s g).pendingTasks.map QueuedTask.id).Nodup) := by
  constructor
  · intro s g tid hdup
    have htasks : (getG s g).pendingTasks ≠ [] := by
      intro he
      rw [he] at hdup
      simp at hdup
    unfold enqueueTask
    by_cases hsd : s.shuttingDown = true
    · simp [hsd]
    · rw [if_neg (by simpa using hsd)]
      rw [ensureGroup_eq_self_of_tasks htasks]
      rw [if_pos hdup]
  · intro s hr g
    exact (reach_schedInv hr).core.tnd g

def exState5 : SchedState :=
  (enqueueTask 1 (enqueueMessageCheck 1 initState "g0").1 "g" "t").1

/-- Witness for C5: with MAX_CONCURRENT_AGENTS = 1 and g0 running, task
t is queued for g; a second enqueue of t is a no-op, and the queue of g
holds pairwise distinct ids. -/
theorem c5_task_dedup_witness :
    enqueueTask 1 exState5 "g" "t" = (exState5, []) ∧
    ((getG exState5 "g").pendingTasks.map QueuedTask.id).Nodup := by
  have h := c5_task_dedup 1
  refine ⟨h.1 exState5 "g" "t" (by decide), h.2 exState5 ?_ "g"⟩
  exact Reach.step (Reach.step Reach.init (Step.enqueueMsg initState "g0"))
    (Step.enqueueTk (enqueueMessageCheck 1 initState "g0").1 "g" "t")

def exState8 : SchedState :=
  (finishMessageRun 1
    (enqueueTask 1
      (enqueueMessageCheck 1 (enqueueMessageCheck 1 initState "g1").1 "g2").1
      "g2" "t").1
    "g1" (some true)).1

/-- C8 counterexample: with MAX_CONCURRENT_AGENTS = 1, g1 runs, g2's
message check and task t are queued behind the limit; when g1 finishes,
drainWaiting starts g2's queued task, and at that moment g2 is active
with its pendingMessages flag still set — a queued-task run entering the
active state does not clear pendingMessageFlag, contrary to the claim
that every run does. -/
theorem c8_counterexample :
    (getG exState8 "g2").active = true ∧
    (getG exState8 "g2").pendingMessages = true ∧
    ("g2", RunKind.task "t") ∈ exState8.running := by decide

/-- C8 amended: entering the active state increments the global active
count for both run kinds, but only a message-check run (runForGroup)
clears pendingMessageFlag — a queued-task run (runTask) leaves the flag
unchanged, so an owed message check survives the task run.  On exit from
active (success or failure, both kinds) the count is decremented and
process, processName, groupFolder and activeChatJid are all cleared, and
only then is drainGroup invoked. -/
theorem c8_active_transitions (MAX : Nat) (s : SchedState) (g tid : String)
    (t : QueuedTask) (outcome : Option Bool) :
    ((startMessageRunSync s g).1.activeCount = s.activeCount + 1 ∧
     (getG (startMessageRunSync s g).1 g).active = true ∧
     (getG (startMessageRunSync s g).1 g).pendingMessages = false) ∧
    ((startTaskRunSync s g t).1.activeCount = s.activeCount + 1 ∧
     (getG (startTaskRunSync s g t).1 g).active = true ∧
     (getG (startTaskRunSync s g t).1 g).pendingMessages = (getG s g).pendingMessages) ∧
    ((finishMessageRunCore s g outcome).1.activeCount = s.activeCount - 1 ∧
     (getG (finishMessageRunCore s g outcome).1 g).active = false ∧
     (getG (finishMessageRunCore s g outcome).1 g).process = none ∧
     (getG (finishMessageRunCore s g outcome).1 g).processName = none ∧
     (getG (finishMessageRunCore s g outcome).1 g).groupFolder = none ∧
     (getG (finishMessageRunCore s g outcome).1 g).activeChatJid = none ∧
     finishMessageRun MAX s g outcome =
       ((drainGroup MAX (finishMessageRunCore s g outcome).1 g).1,
        (finishMessageRunCore s g outcome).2 ++
          (drainGroup MAX (finishMessageRunCore s g outcome).1 g).2)) ∧
    ((finishTaskRunCore s g tid).1.activeCount = s.activeCount - 1 ∧
     getG (finishTaskRunCore s g tid).1 g = clearRunRefs (getG s g) ∧
     finishTaskRun MAX s g tid =
       ((drainGroup MAX (finishTaskRunCore s g tid).1 g).1,
        [] ++ (drainGroup MAX (finishTaskRunCore s g tid).1 g).2)) := by
  obtain ⟨hwg, hsd, hac, hru, hact, htk, hpm, hne⟩ := finishMessageRunCore_fields s g outcome
  obtain ⟨hp1, hp2, hp3, hp4⟩ := finishMessageRunCore_getG_cleared s g outcome
  obtain ⟨twg, tsd, tac, tru, tgg, tne⟩ := finishTaskRunCore_fields s g tid
  refine ⟨⟨by simp, by simp, by simp⟩, ⟨by simp, by simp, by simp⟩,
    ⟨hac, hact, hp1, hp2, hp3, hp4, rfl⟩, ⟨tac, tgg, rfl⟩⟩

/-- C4: the drain order on run exit.  drainGroup first runs the head of
the group's own pendingTasks queue (the oldest, since enqueueTask appends
to the back); else, if pendingMessageFlag is set, it starts a message
check; else it falls through to drainWaiting.  drainWaiting pops waiting
groups in FIFO arrival order while capacity remains (the groups of its
start events form a subsequence of the waiting list in order; at
capacity it stops immediately, starting nothing); for each popped group
a pending task takes priority over the pending message flag; a popped
group with neither pending is skipped: no run is started for it and it
is not re-enqueued on the waiting list. -/
theorem c4_drain_order (MAX : Nat) (s : SchedState) (g : String)
    (hsd : s.shuttingDown = false) :
    (∀ t ts, (getG s g).pendingTasks = t :: ts →
      (drainGroup MAX s g).2 = [Ev.start g (RunKind.task t.id)] ∧
      (getG (drainGroup MAX s g).1 g).pendingTasks = ts ∧
      (getG (drainGroup MAX s g).1 g).active = true) ∧
    ((getG s g).pendingTasks = [] → (getG s g).pendingMessages = true →
      (drainGroup MAX s g).2 = [Ev.start g RunKind.messages] ∧
      (getG (drainGroup MAX s g).1 g).active = true) ∧
    ((getG s g).pendingTasks = [] → (getG s g).pendingMessages = false →
      drainGroup MAX s g = drainWaiting MAX (ensureGroup s g)) ∧
    (∀ (w : List String) (s' : SchedState),
      (startsOf (drainWaitingAux MAX w s').2).Sublist w) ∧
    (∀ (s' : SchedState) (gg : String) (rest : List String),
      MAX ≤ s'.activeCount →
      drainWaitingAux MAX (gg :: rest) s' = ({ s' with waitingGroups := gg :: rest }, [])) ∧
    (∀ (s' : SchedState) (gg : String) (rest : List String), ¬ MAX ≤ s'.activeCount →
      (∀ t ts, (getG s' gg).pendingTasks = t :: ts →
        ∃ tl, (drainWaitingAux MAX (gg :: rest) s').2 =
          Ev.start gg (RunKind.task t.id) :: tl) ∧
      ((getG s' gg).pendingTasks = [] → (getG s' gg).pendingMessages = true →
        ∃ tl, (drainWaitingAux MAX (gg :: rest) s').2 =
          Ev.start gg RunKind.messages :: tl) ∧
      ((getG s' gg).pendingTasks = [] → (getG s' gg).pendingMessages = false →
        drainWaitingAux MAX (gg :: rest) s' = drainWaitingAux MAX rest (ensureGroup s' gg) ∧
        (gg ∉ rest →
          (∀ k, Ev.start gg k ∉ (drainWaitingAux MAX (gg :: rest) s').2) ∧
          gg ∉ (drainWaitingAux MAX (gg :: rest) s').1.waitingGroups))) := by
  refine ⟨?_, ?_, ?_, fun w s' => drainWaitingAux_starts_sublist MAX w s', ?_, ?_⟩
  · intro t ts hpt
    have hpt' : (getG (ensureGroup s g) g).pendingTasks = t :: ts := by
      rw [getG_ensureGroup]; exact hpt
    unfold drainGroup
    rw [if_neg (by simp [hsd])]
    simp only [hpt']
    refine ⟨by rw [startTaskRunSync_trace], ?_, ?_⟩
    · rw [startTaskRunSync_getG_self, getG_setG_self]
    · rw [startTaskRunSync_getG_self]
  · intro hpt hpm
    have hpt' : (getG (ensureGroup s g) g).pendingTasks = [] := by
      rw [getG_ensureGroup]; exact hpt
    have hpm' : (getG (ensureGroup s g) g).pendingMessages = true := by
      rw [getG_ensureGroup]; exact hpm
    unfold drainGroup
    rw [if_neg (by simp [hsd])]
    simp only [hpt', hpm', if_true]
    exact ⟨by rw [startMessageRunSync_trace], by rw [startMessageRunSync_getG_self]⟩
  · intro hpt hpm
    have hpt' : (getG (ensureGroup s g) g).pendingTasks = [] := by
      rw [getG_ensureGroup]; exact hpt
    have hpm' : (getG (ensureGroup s g) g).pendingMessages = false := by
      rw [getG_ensureGroup]; exact hpm
    unfold drainGroup
    rw [if_neg (by simp [hsd])]
    simp only [hpt', hpm', Bool.false_eq_true, if_false]
  · intro s' gg rest hcap
    simp only [drainWaitingAux, if_pos hcap]
  · intro s' gg rest hcap
    refine ⟨?_, ?_, ?_⟩
    · intro t ts hpt
      have hpt' : (getG (ensureGroup s' gg) gg).pendingTasks = t :: ts := by
        rw [getG_ensureGroup]; exact hpt
      simp only [drainWaitingAux, if_neg hcap, hpt']
      exact ⟨_, rfl⟩
    · intro hpt hpm
      have hpt' : (getG (ensureGroup s' gg) gg).pendingTasks = [] := by
        rw [getG_ensureGroup]; exact hpt
      have hpm' : (getG (ensureGroup s' gg) gg).pendingMessages = true := by
        rw [getG_ensureGroup]; exact hpm
      simp only [drainWaitingAux, if_neg hcap, hpt', hpm', if_true]
      exact ⟨_, rfl⟩
    · intro hpt hpm
      have hpt' : (getG (ensureGroup s' gg) gg).pendingTasks = [] := by
        rw [getG_ensureGroup]; exact hpt
      have hpm' : (getG (ensureGroup s' gg) gg).pendingMessages = false := by
        rw [getG_ensureGroup]; exact hpm
      have heq : drainWaitingAux MAX (gg :: rest) s' =
          drainWaitingAux MAX rest (ensureGroup s' gg) := by
        simp only [drainWaitingAux, if_neg hcap, hpt', hpm', Bool.false_eq_true, if_false]
      refine ⟨heq, ?_⟩
      intro hnin
      constructor
      · intro k hk
        rw [heq] at hk
        have := mem_startsOf hk
        have hsub := drainWaitingAux_starts_sublist MAX rest (ensureGroup s' gg)
        exact hnin (hsub.subset this)
      · intro hw
        rw [heq] at hw
        exact hnin (drainWaitingAux_waiting_subset MAX rest (ensureGroup s' gg) gg hw)

def exState4 : SchedState :=
  { groups := [("g", { initGroupState with
      pendingTasks := [⟨"t1"⟩, ⟨"t2"⟩], pendingMessages := true })]
    activeCount := 0
    waitingGroups := []
    shuttingDown := false
    running := []
    retryTimers := [] }

/-- Witness for C4: a group with two queued tasks and a pending message
flag drains its oldest task first, and an at-capacity drainWaiting call
starts nothing. -/
theorem c4_drain_order_witness :
    (drainGroup 2 exState4 "g").2 = [Ev.start "g" (RunKind.task "t1")] ∧
    (getG (drainGroup 2 exState4 "g").1 "g").pendingTasks = [⟨"t2"⟩] ∧
    drainWaitingAux 2 ["h"] { exState4 with activeCount := 2 } =
      ({ { exState4 with activeCount := 2 } with waitingGroups := ["h"] }, []) := by
  have h := c4_drain_order 2 exState4 "g" rfl
  refine ⟨(h.1 ⟨"t1"⟩ [⟨"t2"⟩] (by decide)).1, (h.1 ⟨"t1"⟩ [⟨"t2"⟩] (by decide)).2.1, ?_⟩
  exact h.2.2.2.2.1 { exState4 with activeCount := 2 } "h" [] (by decide)

/-- C9: shutdown only raises the shuttingDown flag and reports the names
of still-running workers; it emits no kill.  After it, every
enqueueMessageCheck and enqueueTask call for any group is a complete
no-op (state and trace unchanged), and a pending retry timer that fires
only removes itself without re-enqueueing.  Moreover no scheduler
transition whatsoever (the Step relation covers them all) ever emits a
kill event toward an in-flight worker. -/
theorem c9_shutdown_no_ops (MAX : Nat) (s : SchedState) :
    (shutdown s).1 = { s with shuttingDown := true } ∧
    (shutdown s).2.2 = [] ∧
    (∀ g, enqueueMessageCheck MAX (shutdown s).1 g = ((shutdown s).1, [])) ∧
    (∀ g tid, enqueueTask MAX (shutdown s).1 g tid = ((shutdown s).1, [])) ∧
    (∀ g d, fireRetry MAX (shutdown s).1 g d =
      ({ (shutdown s).1 with
          retryTimers := (shutdown s).1.retryTimers.erase (g, d) }, [])) ∧
    (∀ (s₀ s₁ : SchedState) (evs : List Ev), Step MAX s₀ s₁ evs →
      ∀ n, Ev.kill n ∉ evs) := by
  refine ⟨rfl, rfl, ?_, ?_, ?_, fun s₀ s₁ evs hs => step_no_kill hs⟩
  · intro g
    exact enqueueMessageCheck_shutdown MAX _ g rfl
  · intro g tid
    exact enqueueTask_shutdown MAX _ g tid rfl
  · intro g d
    rw [fireRetry_eq]
    have hc : (shutdown s).1.shuttingDown = true := rfl
    rw [if_pos hc]

/-- Witness for C9: concrete shutdown of the initial state, a concrete
no-op enqueue afterwards, and a concrete step emitting no kill. -/
theorem c9_shutdown_no_ops_witness :
    enqueueMessageCheck 2 (shutdown initState).1 "g" = ((shutdown initState).1, []) ∧
    Ev.kill "worker" ∉ (enqueueMessageCheck 2 initState "g").2 := by
  have h := c9_shutdown_no_ops 2 initState
  exact ⟨h.2.2.1 "g",
    h.2.2.2.2.2 initState (enqueueMessageCheck 2 initState "g").1
      (enqueueMessageCheck 2 initState "g").2 (Step.enqueueMsg initState "g") "worker"⟩

/-- C6: sendMessage returns false exactly when the group has no active
worker, or no known (truthy) group folder, or a truthy chatJid is
supplied while the run is bound to a different truthy activeChatJid, or
the mailbox write itself fails; it is a total function (the source
catches the write error and returns false instead of throwing).  When it
returns true the atomic mailbox write was performed (the mailboxWrite
event) and the global active count is unchanged. -/
theorem c6_sendMessage_spec (s : SchedState) (g text : String)
    (chatJid : Option String) (w : Bool) :
    ((sendMessage s g text chatJid w).1 = false ↔
      ((getG s g).active = false ∨
       truthy (getG s g).groupFolder = false ∨
       (truthy chatJid = true ∧ truthy (getG s g).activeChatJid = true ∧
        (getG s g).activeChatJid ≠ chatJid) ∨
       w = false)) ∧
    ((sendMessage s g text chatJid w).1 = true →
      (sendMessage s g text chatJid w).2.1.activeCount = s.activeCount ∧
      (sendMessage s g text chatJid w).2.2 = [Ev.mailboxWrite g text]) := by
  rw [sendMessage_eq]
  by_cases he : (getG s g).activeChatJid = chatJid <;>
    cases ha : (getG s g).active <;>
      cases hfo : truthy (getG s g).groupFolder <;>
        cases hcj : truthy chatJid <;>
          cases haj : truthy (getG s g).activeChatJid <;>
            cases hw : w <;>
              simp [ha, hfo, hcj, haj, hw, he]

/-- C10: when the run has no bound activeChatJid (registerProcess was
never given one) the cross-chat guard in sendMessage does not apply: for
any supplied chatJid the call proceeds to the mailbox write and returns
its outcome, in particular true on a successful write. -/
theorem c10_unbound_chat_guard (s : SchedState) (g text : String)
    (chatJid : Option String) (w : Bool)
    (ha : (getG s g).active = true)
    (hfo : truthy (getG s g).groupFolder = true)
    (haj : (getG s g).activeChatJid = none) :
    (sendMessage s g text chatJid w).1 = w := by
  rw [sendMessage_eq]
  rw [getG_ensureGroup, ha, hfo, haj]
  simp only [truthy]
  cases w <;> simp

def exState10 : SchedState :=
  { groups := [("g", { initGroupState with active := true, groupFolder := some "f" })]
    activeCount := 1
    waitingGroups := []
    shuttingDown := false
    running := [("g", RunKind.messages)]
    retryTimers := [] }

/-- Witness for C10: an active run with a known folder and no bound chat
accepts a pipe-in targeted at any chat when the write succeeds. -/
theorem c10_unbound_chat_guard_witness :
    (sendMessage exState10 "g" "hello" (some "c2") true).1 = true :=
  c10_unbound_chat_guard exState10 "g" "hello" (some "c2") true
    (by decide) (by decide) (by decide)

/-- C2: the rollback rule of processGroupMessages.  Under a found group
with bound JIDs, a non-empty batch of missed messages and a passing
trigger gate, the cursor is advanced to the last missed timestamp and
persisted before the run; if the run then fails (error status or a
streamed error) and no output was delivered to the user, the in-memory
cursor at the folder is back at exactly its pre-dispatch value, the
store is persisted to match, and the call returns false so the queue
counts the run as failed and schedules a retry; if at least one output
was delivered before the failure, the cursor keeps its advanced
post-dispatch value (memory and store) and the call returns true, so no
retry is scheduled and the failure is only logged. -/
theorem c2_cursor_rollback (env : RouterEnv) (folder : String) (cur : CursorState)
    (grp : RegisteredGroup) (m : Msg) (ms : List Msg)
    (hg : env.group = some grp)
    (hj : env.boundJids ≠ [])
    (hf : env.fetch (curGet cur.mem folder) = m :: ms)
    (hgate : (!(grp.folder == env.mainGroupFolder) &&
        !(grp.requiresTrigger == some false) &&
        !((m :: ms).any fun x => env.isTrigger x.content)) = false)
    (herr : (env.run.statusError || env.run.hadError) = true) :
    (env.run.outputSent = false →
      (processGroupMessages env folder cur).1 = false ∧
      curGet (processGroupMessages env folder cur).2.mem folder = curGet cur.mem folder ∧
      (processGroupMessages env folder cur).2.store =
        (processGroupMessages env folder cur).2.mem) ∧
    (env.run.outputSent = true →
      (processGroupMessages env folder cur).1 = true ∧
      curGet (processGroupMessages env folder cur).2.mem folder =
        ((m :: ms).getLast (List.cons_ne_nil m ms)).timestamp ∧
      (processGroupMessages env folder cur).2.store =
        (processGroupMessages env folder cur).2.mem) := by
  have hres : processGroupMessages env folder cur =
      if env.run.outputSent
      then (true, saveState (curSet cur folder
        ((m :: ms).getLast (List.cons_ne_nil m ms)).timestamp))
      else (false, saveState (curSet (saveState (curSet cur folder
        ((m :: ms).getLast (List.cons_ne_nil m ms)).timestamp)) folder
        (curGet cur.mem folder))) := by
    simp only [processGroupMessages, hg, hf, hgate, Bool.false_eq_true, if_false, herr,
      if_true, if_neg hj]
  rw [hres]
  constructor
  · intro hout
    rw [hout]
    simp only [Bool.false_eq_true, if_false]
    refine ⟨by trivial, ?_, by trivial⟩
    simp [saveState, curSet, curGet_curAssign_self]
  · intro hout
    rw [hout]
    simp only [if_true]
    refine ⟨by trivial, ?_, by trivial⟩
    simp [saveState, curSet, curGet_curAssign_self]

def routerEnv2 (outSent : Bool) : RouterEnv :=
  { group := some { name := "Main", folder := "main", requiresTrigger := none }
    boundJids := ["j1"]
    fetch := fun _ => [{ chat_jid := "c1", timestamp := "t1", content := "hi" }]
    isTrigger := fun _ => false
    mainGroupFolder := "main"
    run := { statusError := true, hadError := false, outputSent := outSent } }

/-- Witness for C2: one missed message, a failing run.  Without output the
cursor is rolled back to the empty pre-dispatch value and the call fails;
with output already sent it stays advanced at t1 and the call succeeds. -/
theorem c2_cursor_rollback_witness :
    (processGroupMessages (routerEnv2 false) "main" ⟨[], []⟩).1 = false ∧
    curGet (processGroupMessages (routerEnv2 false) "main" ⟨[], []⟩).2.mem "main" = "" ∧
    (processGroupMessages (routerEnv2 true) "main" ⟨[], []⟩).1 = true ∧
    curGet (processGroupMessages (routerEnv2 true) "main" ⟨[], []⟩).2.mem "main" = "t1" := by
  have h1 := c2_cursor_rollback (routerEnv2 false) "main" ⟨[], []⟩
    { name := "Main", folder := "main", requiresTrigger := none }
    { chat_jid := "c1", timestamp := "t1", content := "hi" } []
    rfl (by decide) rfl (by decide) rfl
  have h2 := c2_cursor_rollback (routerEnv2 true) "main" ⟨[], []⟩
    { name := "Main", folder := "main", requiresTrigger := none }
    { chat_jid := "c1", timestamp := "t1", content := "hi" } []
    rfl (by decide) rfl (by decide) rfl
  obtain ⟨ha, hb, _⟩ := h1.1 rfl
  obtain ⟨hc, hd, _⟩ := h2.2 rfl
  exact ⟨ha, hb, hc, hd⟩

def pollEnv7 : PollEnv :=
  { group := some { name := "Main", folder := "f", requiresTrigger := none }
    isTrigger := fun _ => false
    mainGroupFolder := "f"
    fetch := fun _ => []
    format := fun _ => "x"
    writeOk := true }

/-- C7 counterexample: in a poll cycle for a triggered group with one new
message and no active worker, pipe-in fails and the loop calls
enqueueMessageCheck (a run starts), but the per-group handed cursor is
NOT advanced: it still reads the empty string, not the latest message
timestamp t1 that the claim requires, and nothing was persisted.  (The
cursor is advanced only later, inside the message-check run itself.) -/
theorem c7_counterexample :
    (pollFolderStep 1 pollEnv7 "f"
      [{ chat_jid := "c1", timestamp := "t1", content := "hi" }] ⟨[], []⟩ initState).2.2 =
      [Ev.start "f" RunKind.messages] ∧
    curGet (pollFolderStep 1 pollEnv7 "f"
      [{ chat_jid := "c1", timestamp := "t1", content := "hi" }] ⟨[], []⟩ initState).1.mem
      "f" = "" ∧
    ("" = "t1" → False) := by decide

/-- Helper abbreviation: the batch a poll iteration hands over — all
pending messages since the handed cursor if any, else this cycle's
batch. -/
def pollBatch (env : PollEnv) (folder : String) (folderMessages : List Msg)
    (cur : CursorState) : List Msg :=
  if (env.fetch (curGet cur.mem folder)).length > 0
  then env.fetch (curGet cur.mem folder) else folderMessages

/-- Helper abbreviation: the pipe-in attempt a poll iteration makes. -/
def pollPipe (env : PollEnv) (folder : String) (folderMessages : List Msg)
    (cur : CursorState) (s : SchedState) : Bool × SchedState × List Ev :=
  sendMessage s folder (env.format (pollBatch env folder folderMessages cur))
    (some ((pollBatch env folder folderMessages cur).getLastD ⟨"", "", ""⟩).chat_jid)
    env.writeOk

/-- C7 amended: in a poll cycle, for a triggered group with new messages:
if pipe-in (sendMessage) succeeds, the per-group handed cursor is
advanced to the latest handed message timestamp, persisted, and no new
run is started; if there is no active worker or pipe-in fails, the
cursor is left completely unchanged (not advanced, nothing persisted)
and enqueueMessageCheck is called for the group — the cursor advance for
that path happens later inside the message-check run itself
(processGroupMessages), not in the poll loop. -/
theorem c7_poll_dispatch (MAX : Nat) (env : PollEnv) (folder : String)
    (folderMessages : List Msg) (cur : CursorState) (s : SchedState)
    (grp : RegisteredGroup)
    (hg : env.group = some grp)
    (hgate : (!(grp.folder == env.mainGroupFolder) &&
        !(grp.requiresTrigger == some false) &&
        !(folderMessages.any fun m => env.isTrigger m.content)) = false) :
    ((pollPipe env folder folderMessages cur s).1 = true →
      pollFolderStep MAX env folder folderMessages cur s =
        (saveState (curSet cur folder
          ((pollBatch env folder folderMessages cur).getLastD ⟨"", "", ""⟩).timestamp),
         (pollPipe env folder folderMessages cur s).2.1,
         (pollPipe env folder folderMessages cur s).2.2) ∧
      curGet (pollFolderStep MAX env folder folderMessages cur s).1.mem folder =
        ((pollBatch env folder folderMessages cur).getLastD ⟨"", "", ""⟩).timestamp ∧
      (pollFolderStep MAX env folder folderMessages cur s).1.store =
        (pollFolderStep MAX env folder folderMessages cur s).1.mem ∧
      (∀ g k, Ev.start g k ∉ (pollFolderStep MAX env folder folderMessages cur s).2.2)) ∧
    ((pollPipe env folder folderMessages cur s).1 = false →
      pollFolderStep MAX env folder folderMessages cur s =
        (cur, (enqueueMessageCheck MAX (pollPipe env folder folderMessages cur s).2.1 folder).1,
         (pollPipe env folder folderMessages cur s).2.2 ++
           (enqueueMessageCheck MAX (pollPipe env folder folderMessages cur s).2.1 folder).2)) := by
  have hres : pollFolderStep MAX env folder folderMessages cur s =
      if (pollPipe env folder folderMessages cur s).1
      then (saveState (curSet cur folder
          ((pollBatch env folder folderMessages cur).getLastD ⟨"", "", ""⟩).timestamp),
        (pollPipe env folder folderMessages cur s).2.1,
        (pollPipe env folder folderMessages cur s).2.2)
      else (cur,
        (enqueueMessageCheck MAX (pollPipe env folder folderMessages cur s).2.1 folder).1,
        (pollPipe env folder folderMessages cur s).2.2 ++
          (enqueueMessageCheck MAX (pollPipe env folder folderMessages cur s).2.1 folder).2) := by
    simp only [pollFolderStep, hg, hgate, Bool.false_eq_true, if_false, pollPipe, pollBatch]
  rw [hres]
  constructor
  · intro hp
    rw [hp]
    simp only [if_true]
    refine ⟨by trivial, ?_, by trivial, ?_⟩
    · simp [saveState, curSet, curGet_curAssign_self]
    · intro g k hk
      rcases sendMessage_trace s folder
          (env.format (pollBatch env folder folderMessages cur))
          (some ((pollBatch env folder folderMessages cur).getLastD ⟨"", "", ""⟩).chat_jid)
          env.writeOk with he | he <;>
        rw [show (pollPipe env folder folderMessages cur s).2.2 =
            (sendMessage s folder (env.format (pollBatch env folder folderMessages cur))
              (some ((pollBatch env folder folderMessages cur).getLastD ⟨"", "", ""⟩).chat_jid)
              env.writeOk).2.2 from rfl, he] at hk <;>
        simp at hk
  · intro hp
    rw [hp]
    simp only [Bool.false_eq_true, if_false]

def exState7 : SchedState :=
  { groups := [("f", { initGroupState with active := true, groupFolder := some "f" })]
    activeCount := 1
    waitingGroups := []
    shuttingDown := false
    running := [("f", RunKind.messages)]
    retryTimers := [] }

/-- Witness for C7: with no active worker the poll iteration leaves the
cursor untouched and enqueues a message check; with an active worker
bound to folder f the pipe-in succeeds and the cursor advances to t1. -/
theorem c7_poll_dispatch_witness :
    pollFolderStep 1 pollEnv7 "f"
      [{ chat_jid := "c1", timestamp := "t1", content := "hi" }] ⟨[], []⟩ initState =
      (⟨[], []⟩,
       (enqueueMessageCheck 1 (pollPipe pollEnv7 "f"
          [{ chat_jid := "c1", timestamp := "t1", content := "hi" }] ⟨[], []⟩
          initState).2.1 "f").1,
       (pollPipe pollEnv7 "f"
          [{ chat_jid := "c1", timestamp := "t1", content := "hi" }] ⟨[], []⟩
          initState).2.2 ++
         (enqueueMessageCheck 1 (pollPipe pollEnv7 "f"
            [{ chat_jid := "c1", timestamp := "t1", content := "hi" }] ⟨[], []⟩
            initState).2.1 "f").2) ∧
    curGet (pollFolderStep 1 pollEnv7 "f"
      [{ chat_jid := "c1", timestamp := "t1", content := "hi" }] ⟨[], []⟩
      exState7).1.mem "f" = "t1" := by
  constructor
  · exact (c7_poll_dispatch 1 pollEnv7 "f"
      [{ chat_jid := "c1", timestamp := "t1", content := "hi" }] ⟨[], []⟩ initState
      { name := "Main", folder := "f", requiresTrigger := none } rfl (by decide)).2
      (by decide)
  · exact ((c7_poll_dispatch 1 pollEnv7 "f"
      [{ chat_jid := "c1", timestamp := "t1", content := "hi" }] ⟨[], []⟩ exState7
      { name := "Main", folder := "f", requiresTrigger := none } rfl (by decide)).1
      (by decide)).2.1
